import Mathlib

/-!
# antsApplyTransforms: direction correction, component assembly and the per-dimension pipeline

A shallow embedding of `Examples/antsApplyTransforms.cxx`.

* `double` values are exact rationals (`ℚ`): every statement below is a statement of exact
  arithmetic, rounding is not modelled.
* An image is its header (`ImageInfo`), its region and a pixel buffer addressed by discrete
  index.  After `Update()` the largest-possible, buffered and requested regions of an ITK
  image coincide, so a single `region` stands for the three.
* Region iterators are folds over the list of the region's indices, `It.Set` is a
  point update of the buffer.
-/

namespace ants

/-! ## Data model -/

/-- A point or a vector voxel: `itk::Vector<double, Dimension>`. -/
abbrev Vec (n : Nat) := Fin n → ℚ

/-- A square matrix: `DirectionType::InternalMatrixType` (`vnl_matrix_fixed<double, n, n>`). -/
abbrev Mat (n : Nat) := Fin n → Fin n → ℚ

/-- A symmetric second rank tensor voxel, six stored values (xx, xy, xz, yy, yz, zz). -/
abbrev Tensor := Fin 6 → ℚ

/-- A discrete index, one integer per axis. -/
abbrev Index := List Int

/-- An image region: start index and size per axis. -/
structure Region where
  index : List Int
  size : List Nat
  deriving DecidableEq, Repr

/-- The indices of a region in iterator order (first axis fastest). -/
def regionIndices : List Int → List Nat → List Index
  | i :: is, s :: ss =>
      (regionIndices is ss).flatMap fun tail => (List.range s).map fun (k : Nat) => (i + Int.ofNat k) :: tail
  | _, _ => [[]]

/-- The indices an `ImageRegionIterator` over the region visits, in order. -/
def Region.indices (r : Region) : List Index := regionIndices r.index r.size

/-- The header of an image: what `CopyInformation` copies besides the region. -/
structure ImageInfo (n : Nat) where
  origin : Vec n
  spacing : Vec n
  direction : Mat n

/-- An image with pixel type `α`: header, region and buffer. -/
structure Image (n : Nat) (α : Type) where
  info : ImageInfo n
  region : Region
  pixel : Index → α

/-- The call `GetDirection()`. -/
def Image.GetDirection {n : Nat} {α : Type} (img : Image n α) : Mat n := img.info.direction

/-- The call `GetPixel( index )`. -/
def Image.GetPixel {n : Nat} {α : Type} (img : Image n α) (i : Index) : α := img.pixel i

/-- The loop `for( It.GoToBegin(); !It.IsAtEnd(); ++It ) It.Set( f( It.Get() ) )` of an
`ImageRegionIterator` over the image's region. -/
def Image.forEachPixel {n : Nat} {α : Type} (img : Image n α) (f : α → α) : Image n α :=
  { img with
    pixel := img.region.indices.foldl (fun buf i => Function.update buf i (f (buf i))) img.pixel }

/-! ## The parts of vnl the reorienter calls -/

/-- Modelled from the spec: `GetTranspose()` / `transpose()` of vnl (not under src/), the
`transpose(M)` of §4.1. -/
def GetTranspose {n : Nat} (A : Mat n) : Mat n := fun i j => A j i

/-- Modelled from the spec: `operator*` of `vnl_matrix_fixed` (not under src/), the matrix
product `·` of §4.1: entry `(i, j)` is the sum over `k` of `A(i,k) * B(k,j)`. -/
def matMul {n : Nat} (A B : Mat n) : Mat n := fun i j => ∑ k, A i k * B k j

/-- Modelled from the spec: `is_identity( tol )` of vnl (not under src/), "identity within
tolerance" of §4.1: the loop over all entries answers `false` at the first entry whose
absolute deviation from the identity's entry exceeds `tol`. -/
def is_identity {n : Nat} (A : Mat n) (tol : ℚ) : Bool :=
  (List.finRange n).all fun i => (List.finRange n).all fun j =>
    let absdev := if i = j then |A i j - 1| else |A i j|
    !decide (absdev > tol)

/-- Modelled from the spec: `vnl_vector::pre_multiply( M )` (not under src/), which §4.1 gives
as `v ← D · v`; vnl accumulates `temp[i] += M(i,k) * data[k]` over `k`. -/
def pre_multiply {n : Nat} (v : Vec n) (M : Mat n) : Vec n := fun i =>
  (List.finRange n).foldl (fun temp k => temp + M i k * v k) 0

/-- The literal `0.00001` passed to `is_identity`. -/
def directionTolerance : ℚ := 1 / 100000

/-! ## Direction Reorienter (lines 30–104) -/

/-- The matrix `GetDirection().GetTranspose() * referenceImage->GetDirection().GetVnlMatrix()`
(lines 36–37 and 74–75). -/
def directionDifference {n : Nat} (M R : Mat n) : Mat n := matMul (GetTranspose M) R

/-- The symmetric 3x3 matrix `dt` filled from a tensor voxel (lines 46–52). -/
def tensorToMatrix (tensor : Tensor) : Mat 3 :=
  ![![tensor 0, tensor 1, tensor 2],
    ![tensor 1, tensor 3, tensor 4],
    ![tensor 2, tensor 4, tensor 5]]

/-- The six values stored back from `dt` (lines 56–61). -/
def matrixToTensor (dt : Mat 3) : Tensor :=
  ![dt 0 0, dt 0 1, dt 0 2, dt 1 1, dt 1 2, dt 2 2]

/-- The loop body of `CorrectImageTensorDirection` (lines 44–63):
`dt = direction * dt * direction.transpose()`. -/
def correctTensor (direction : Mat 3) (tensor : Tensor) : Tensor :=
  matrixToTensor (matMul (matMul direction (tensorToMatrix tensor)) (GetTranspose direction))

/-- The function `CorrectImageTensorDirection` (lines 30–66). -/
def CorrectImageTensorDirection {β : Type} (movingTensorImage : Image 3 Tensor)
    (referenceImage : Image 3 β) : Image 3 Tensor :=
  let direction := directionDifference movingTensorImage.GetDirection referenceImage.GetDirection
  if !is_identity direction directionTolerance then
    movingTensorImage.forEachPixel (correctTensor direction)
  else
    movingTensorImage

/-- The function `CorrectImageVectorDirection` (lines 68–104). -/
def CorrectImageVectorDirection {n : Nat} {β : Type} (movingVectorImage : Image n (Vec n))
    (referenceImage : Image n β) : Image n (Vec n) :=
  let direction := directionDifference movingVectorImage.GetDirection referenceImage.GetDirection
  if !is_identity direction directionTolerance then
    movingVectorImage.forEachPixel (fun vector => pre_multiply vector direction)
  else
    movingVectorImage


/-! ## Concrete images used to exercise the reorienter -/

/-- The identity direction of a 3-D image. -/
def identityDirection3 : Mat 3 := ![![1, 0, 0], ![0, 1, 0], ![0, 0, 1]]

/-- A rotation by 90 degrees about the third axis: axis X is sent to axis Y. -/
def quarterTurnDirection3 : Mat 3 := ![![0, -1, 0], ![1, 0, 0], ![0, 0, 1]]

/-- A non-singular direction that is not orthogonal: the first axis is scaled by 2. -/
def scaledDirection3 : Mat 3 := ![![2, 0, 0], ![0, 1, 0], ![0, 0, 1]]

/-- A direction whose first axis is off the identity by one millionth. -/
def nearIdentityDirection3 : Mat 3 := ![![1 + 1 / 1000000, 0, 0], ![0, 1, 0], ![0, 0, 1]]

/-- A region of two voxels along the first axis. -/
def twoVoxelRegion : Region := { index := [0, 0, 0], size := [2, 1, 1] }

/-- A 3-D image header with unit spacing, zero origin and the given direction. -/
def headerWithDirection (direction : Mat 3) : ImageInfo 3 :=
  { origin := fun _ => 0, spacing := fun _ => 1, direction := direction }

/-- A two-voxel vector image holding `(1, 2, 3)` in every voxel. -/
def exampleVectorImage (direction : Mat 3) : Image 3 (Vec 3) :=
  { info := headerWithDirection direction, region := twoVoxelRegion, pixel := fun _ => ![1, 2, 3] }

/-- A two-voxel tensor image holding `(1, 2, 3, 4, 5, 6)` in every voxel. -/
def exampleTensorImage (direction : Mat 3) : Image 3 Tensor :=
  { info := headerWithDirection direction, region := twoVoxelRegion,
    pixel := fun _ => ![1, 2, 3, 4, 5, 6] }

/-- A two-voxel reference image (header only matters). -/
def exampleReferenceImage (direction : Mat 3) : Image 3 Unit :=
  { info := headerWithDirection direction, region := twoVoxelRegion, pixel := fun _ => () }

/-- A signed permutation matrix: column `j` has its only non-zero entry, `1` or `-1`, in row
`σ j`; as a reference direction against an identity moving direction it sends axis `j` to
axis `σ j`. -/
def signedPermutation (σ : Equiv.Perm (Fin 3)) (negative : Fin 3 → Bool) : Mat 3 :=
  fun i j => if i = σ j then (if negative j then -1 else 1) else 0

/-- A two-voxel vector image holding the unit vector along X, `(1, 0, 0)`, in every voxel. -/
def unitXVectorImage (direction : Mat 3) : Image 3 (Vec 3) :=
  { info := headerWithDirection direction, region := twoVoxelRegion, pixel := fun _ => ![1, 0, 0] }

/-! ## Transform stack (§4.2)

`GetCompositeTransformFromParserOption` and `itk::CompositeTransform` are not under src/. -/

/-- A physical point. -/
abbrev Point (n : Nat) := Vec n

/-- Modelled from the spec: a Transform (§3), a pure mapping of physical points that may or may
not support inversion (`itk::Transform` is not under src/). -/
structure Transform (n : Nat) where
  forward : Point n → Point n
  inverse : Option (Point n → Point n)

/-- Modelled from the spec: one entry of the externally supplied transform list (§4.2, §6), a
transform handle and its use-inverse flag. -/
structure TransformEntry (n : Nat) where
  transform : Transform n
  useInverse : Bool

/-- Modelled from the spec: the Transform Stack (§3, `itk::CompositeTransform`, not under
src/): the mappings in the order they were pushed, the base identity first. -/
structure CompositeTransform (n : Nat) where
  stack : List (Point n → Point n)

/-- Modelled from the spec: the implicit identity transform the stack starts from (§4.2). -/
def identityTransform {n : Nat} : Point n → Point n := fun p => p

/-- Modelled from the spec: the stack holding only the implicit identity (§4.2). -/
def CompositeTransform.base {n : Nat} : CompositeTransform n := { stack := [identityTransform] }

/-- Modelled from the spec: pushing a mapping; it becomes evaluated before all previously
pushed entries and before the identity (§4.2). -/
def CompositeTransform.push {n : Nat} (c : CompositeTransform n) (t : Point n → Point n) :
    CompositeTransform n :=
  { stack := c.stack ++ [t] }

/-- Modelled from the spec: mapping a point (§4.2): the most recently pushed transform is
applied first, then the second most recently pushed, …, finishing with the identity. -/
def CompositeTransform.TransformPoint {n : Nat} (c : CompositeTransform n) (p : Point n) :
    Point n :=
  c.stack.foldr (fun t q => t q) p

/-- Modelled from the spec: the mapping an entry contributes (§4.2): the forward map, or the
inverse when "use inverse" is requested; `none` when it is requested and the transform does
not support inversion. -/
def TransformEntry.mapping {n : Nat} (e : TransformEntry n) : Option (Point n → Point n) :=
  if e.useInverse then e.transform.inverse else some e.transform.forward

/-- Modelled from the spec: `GetCompositeTransformFromParserOption` (not under src/; §4.2):
start from the implicit identity and push every entry in the order it was specified; a
requested inverse that is not available is a hard construction failure (a null pointer). -/
def GetCompositeTransformFromParserOption {n : Nat} (entries : List (TransformEntry n)) :
    Option (CompositeTransform n) :=
  entries.foldl
    (fun acc e =>
      match acc, e.mapping with
      | some c, some t => some (c.push t)
      | _, _ => none)
    (some CompositeTransform.base)

/-- A translation by `d`, with its inverse. -/
def translation {n : Nat} (d : Vec n) : Transform n :=
  { forward := fun p r => p r + d r, inverse := some fun p r => p r - d r }

/-- A uniform scaling by 2 that offers no inverse. -/
def doubling {n : Nat} : Transform n :=
  { forward := fun p r => 2 * p r, inverse := none }

/-! ## Resample Engine, Splitter and Assembler (§4.3, §4.4) -/

/-- Modelled from the spec: the index-to-physical-point map of a Grid Geometry (§2;
`TransformIndexToPhysicalPoint` of ITK, not under src/):
`origin + direction · (spacing ⊙ index)`. -/
def TransformIndexToPhysicalPoint {n : Nat} (info : ImageInfo n) (i : Index) : Point n :=
  fun r => info.origin r + ∑ c, info.direction r c * (info.spacing c * ((i.getD c 0 : Int) : ℚ))

/-- Window functions of the windowed-sinc interpolators instantiated in lines 280–297. -/
inductive WindowFunction where
  | Hamming | Cosine | Welch | Lanczos | Blackman
  deriving DecidableEq, Repr

/-- The interpolator objects created in lines 267–303, with the parameters set on them.
`WindowedSinc` carries its radius template argument. -/
inductive Interpolator (n : Nat) where
  | Linear
  | NearestNeighbor
  | BSpline (order : Nat)
  | Gaussian (sigma : Vec n) (alpha : ℚ)
  | MultiLabel (sigma : Vec n) (alpha : ℚ)
  | WindowedSinc (radius : Nat) (window : WindowFunction)

/-- Modelled from the spec: the Resample Engine (§4.4; `itk::ResampleImageFilter` is not under
src/) with `SetOutputParametersFromImage( referenceImage )`: the output has the reference
geometry; at index `i` it holds the interpolator's sample at the transformed physical point of
`i`, or the default value when that point is outside the interpolation domain (`sample`
answers `none`). -/
def ResampleImageFilter {n : Nat} {β : Type} (sample : Image n ℚ → Point n → Option ℚ)
    (input : Image n ℚ) (referenceImage : Image n β) (transform : CompositeTransform n)
    (defaultValue : ℚ) : Image n ℚ :=
  { info := referenceImage.info
    region := referenceImage.region
    pixel := fun i =>
      match sample input (transform.TransformPoint (TransformIndexToPhysicalPoint referenceImage.info i)) with
      | some value => value
      | none => defaultValue }

/-- Modelled from the spec: the Splitter's selector (§4.3;
`itk::VectorIndexSelectionCastImageFilter` is not under src/): the scalar image of one
component index, sharing the input's geometry. -/
def VectorIndexSelectionCast {n m : Nat} (input : Image n (Fin m → ℚ)) (index : Fin m) :
    Image n ℚ :=
  { info := input.info, region := input.region, pixel := fun i => input.pixel i index }

/-- The split loops of lines 217–226 and 231–240: one selector output per component index,
pushed in order. -/
def splitComponents {n m : Nat} (input : Image n (Fin m → ℚ)) : List (Image n ℚ) :=
  (List.finRange m).map (VectorIndexSelectionCast input)

/-- The loop of an `ImageRegionIteratorWithIndex`:
`for( It.GoToBegin(); !It.IsAtEnd(); ++It ) It.Set( f( It.GetIndex(), It.Get() ) )`. -/
def Image.forEachPixelWithIndex {n : Nat} {α : Type} (img : Image n α) (f : Index → α → α) :
    Image n α :=
  { img with
    pixel := img.region.indices.foldl (fun buf i => Function.update buf i (f i (buf i))) img.pixel }

/-- The assembly of lines 502–521 (vector, `m = Dimension`) and 536–555 (tensor, `m = 6`): a
new image with the reference's information and region is allocated and zero-filled, then at
every index component `k` is set to `outputImages[k]->GetPixel( index )`. It runs after the
count check, which supplies `h`. -/
def assembleComponents {n : Nat} {β : Type} (m : Nat) (referenceImage : Image n β)
    (outputImages : List (Image n ℚ)) (h : outputImages.length = m) : Image n (Fin m → ℚ) :=
  let allocated : Image n (Fin m → ℚ) :=
    { info := referenceImage.info, region := referenceImage.region, pixel := fun _ _ => 0 }
  allocated.forEachPixelWithIndex fun index vector =>
    (List.finRange m).foldl
      (fun v k => Function.update v k ((outputImages.get (k.cast h.symm)).GetPixel index))
      vector

/-- Modelled from the spec: the displacement field of a transform on the reference grid (§6;
`itk::TransformToDisplacementFieldSource` is not under src/): at every reference-grid point,
mapped point minus original point. -/
def TransformToDisplacementFieldSource {n : Nat} {β : Type} (referenceImage : Image n β)
    (transform : CompositeTransform n) : Image n (Vec n) :=
  { info := referenceImage.info
    region := referenceImage.region
    pixel := fun i r =>
      transform.TransformPoint (TransformIndexToPhysicalPoint referenceImage.info i) r
        - TransformIndexToPhysicalPoint referenceImage.info i r }

/-! ## The per-dimension pipeline `antsApplyTransforms<Dimension>` (lines 106–571) -/

/-- What an `itk::ants::CommandLineParser` option object answers (its class is not under
src/); the first argument of `GetParameter` and the argument of `GetNumberOfParameters` is the
index of the value, as in the calls `GetParameter( 0, 1 )` of lines 177, 465 and 484. -/
structure CommandLineOption where
  GetNumberOfValues : Nat
  GetValue : Nat → String
  GetNumberOfParameters : Nat → Nat
  GetParameter : Nat → Nat → String

/-- An option that was not given on the command line. -/
def CommandLineOption.absent : CommandLineOption :=
  { GetNumberOfValues := 0, GetValue := fun _ => "", GetNumberOfParameters := fun _ => 0,
    GetParameter := fun _ _ => "" }

/-- An option given once, as `value` or `value[p0,p1,…]`. -/
def CommandLineOption.single (value : String) (parameters : List String) : CommandLineOption :=
  { GetNumberOfValues := 1
    GetValue := fun i => if i = 0 then value else ""
    GetNumberOfParameters := fun i => if i = 0 then parameters.length else 0
    GetParameter := fun i j => if i = 0 then parameters.getD j "" else "" }

/-- The options the pipeline reads from the parser; the transform option is given resolved, as
the ordered list of (transform, use-inverse) entries (§6). -/
structure CommandLineParser (n : Nat) where
  input : CommandLineOption
  output : CommandLineOption
  referenceImage : CommandLineOption
  transform : List (TransformEntry n)
  interpolation : CommandLineOption
  defaultValue : CommandLineOption

/-- The collaborators outside this file: the image readers (`none`: the file cannot be read),
the parser's string conversions and the sampling rule of each interpolator. -/
structure Collaborators (n : Nat) where
  readScalarImage : String → Option (Image n ℚ)
  readVectorImage : String → Option (Image n (Vec n))
  readTensorImage : String → Option (Image n Tensor)
  readReferenceImage : String → Option (Image n Unit)
  convertUnsigned : String → Nat
  convertReal : String → ℚ
  convertRealVector : String → List ℚ
  evaluate : Interpolator n → Image n ℚ → Point n → Option ℚ

/-- How a run of the pipeline ends: it returns `EXIT_SUCCESS` or `EXIT_FAILURE`, or it does not
return (an exception leaves the function, or a missing image is dereferenced). -/
inductive Status where
  | EXIT_SUCCESS | EXIT_FAILURE | aborted
  deriving DecidableEq, Repr

/-- An image handed to a file writer. -/
inductive Written (n : Nat) where
  | scalarImage (fileName : String) (image : Image n ℚ)
  | vectorImage (fileName : String) (image : Image n (Vec n))
  | tensorImage (fileName : String) (image : Image n Tensor)
  | displacementField (fileName : String) (image : Image n (Vec n))

/-- A run of the pipeline: how it ended, the resampled images in `outputImages` at that time
and the images written. -/
structure Run (n : Nat) where
  status : Status
  outputImages : List (Image n ℚ)
  written : List (Written n)

/-- A step of the pipeline: it either leaves the function with a run or goes on with a value. -/
abbrev Step (n : Nat) (α : Type) := Except (Run n) α

/-- Leaving the function before anything was resampled or written. -/
def Run.early {n : Nat} (status : Status) : Run n :=
  { status := status, outputImages := [], written := [] }

/-- The images read by the input option handling. -/
structure Inputs (n : Nat) where
  tensorImage : Option (Image n Tensor)
  vectorImage : Option (Image n (Vec n))
  inputImages : List (Image n ℚ)

/-- Lines 137–182: the input option. An exception of the scalar reader is not caught; the
vector reader's is, and returns failure; `ReadTensorImage` leaves the pointer null when it
cannot read. -/
def readInputs {n : Nat} (env : Collaborators n) (parser : CommandLineParser n)
    (inputImageType : Nat) : Step n (Inputs n) :=
  if inputImageType = 2 ∧ parser.input.GetNumberOfValues > 0 then
    .ok { tensorImage := env.readTensorImage (parser.input.GetValue 0), vectorImage := none,
          inputImages := [] }
  else if inputImageType = 0 ∧ parser.input.GetNumberOfValues > 0 then
    match env.readScalarImage (parser.input.GetValue 0) with
    | some image => .ok { tensorImage := none, vectorImage := none, inputImages := [image] }
    | none => .error (Run.early .aborted)
  else if inputImageType = 1 ∧ parser.input.GetNumberOfValues > 0 then
    match env.readVectorImage (parser.input.GetValue 0) with
    | some image => .ok { tensorImage := none, vectorImage := some image, inputImages := [] }
    | none => .error (Run.early .EXIT_FAILURE)
  else if parser.output.GetNumberOfValues > 0 then
    if parser.output.GetNumberOfParameters 0 > 1 ∧
        env.convertUnsigned (parser.output.GetParameter 0 1) = 0 then
      .error (Run.early .EXIT_FAILURE)
    else
      .ok { tensorImage := none, vectorImage := none, inputImages := [] }
  else
    .ok { tensorImage := none, vectorImage := none, inputImages := [] }

/-- Lines 184–212: the reference image option. -/
def readReference {n : Nat} (env : Collaborators n) (parser : CommandLineParser n) :
    Step n (Image n Unit) :=
  if parser.referenceImage.GetNumberOfValues > 0 then
    match env.readReferenceImage (parser.referenceImage.GetValue 0) with
    | some image => .ok image
    | none => .error (Run.early .aborted)
  else
    .error (Run.early .EXIT_FAILURE)

/-- Lines 230–240 for a tensor image: `CorrectImageTensorDirection` fills a 3x3 matrix from
the voxel, so only the instantiation with `Dimension = 3` is defined (the only one the entry
point makes with tensor input, line 898). -/
def correctAndSplitTensor : (n : Nat) → Image n Tensor → Image n Unit → Option (List (Image n ℚ))
  | 3, tensorImage, referenceImage =>
      some (splitComponents (CorrectImageTensorDirection tensorImage referenceImage))
  | _, _, _ => none

/-- Lines 214–241: direction correction and split of vector and tensor input; a null
`vectorImage` or `tensorImage` is dereferenced when the input option was absent. -/
def correctAndSplit {n : Nat} (inputImageType : Nat) (inputs : Inputs n)
    (referenceImage : Image n Unit) : Step n (List (Image n ℚ)) :=
  if inputImageType = 1 then
    match inputs.vectorImage with
    | some vectorImage =>
        .ok (inputs.inputImages
          ++ splitComponents (CorrectImageVectorDirection vectorImage referenceImage))
    | none => .error (Run.early .aborted)
  else if inputImageType = 2 then
    match inputs.tensorImage with
    | some tensorImage =>
        match correctAndSplitTensor n tensorImage referenceImage with
        | some components => .ok (inputs.inputImages ++ components)
        | none => .error (Run.early .aborted)
    | none => .error (Run.early .aborted)
  else
    .ok inputs.inputImages

/-- Lines 253–262: the composite transform; a null pointer returns failure. -/
def buildTransform {n : Nat} (parser : CommandLineParser n) : Step n (CompositeTransform n) :=
  match GetCompositeTransformFromParserOption parser.transform with
  | some compositeTransform => .ok compositeTransform
  | none => .error (Run.early .EXIT_FAILURE)

/-- Modelled from the spec: `ConvertToLowerCase` of antsUtilities is not under src/ and the
spec does not describe it; by its name and its use before the comparisons with lower-case
literals (lines 314–363) every character is replaced by its lower-case form. -/
def ConvertToLowerCase (s : String) : String := String.mk (s.data.map Char.toLower)

/-- Lines 331–355 and 365–389: the sigma array, the spacing of `inputImages[0]` unless the
first parameter gives it; `none` when `inputImages[0]` or `s[0]` does not exist. -/
def kernelSigma {n : Nat} (env : Collaborators n) (interpolationOption : CommandLineOption)
    (inputImages : List (Image n ℚ)) : Option (Vec n) :=
  match inputImages.head? with
  | none => none
  | some first =>
      if interpolationOption.GetNumberOfParameters 0 > 0 then
        let s := env.convertRealVector (interpolationOption.GetParameter 0 0)
        if s.length = n then
          some fun d => s.getD d 0
        else
          match s.head? with
          | some s0 => some fun _ => s0
          | none => none
      else
        some first.info.spacing

/-- Lines 305–393: the interpolation option. The result is the lower-cased name in
`whichInterpolator` (`"linear"` when the option is absent) and the `interpolator` pointer,
null unless the name is one of the four compared here. The one-argument calls
`GetParameter( 0 )` and `GetParameter( 1 )` of lines 340, 358 and 374 give the value index and
leave the parameter index at its default 0; `GetNumberOfParameters()` is that of value 0. -/
def selectInterpolator {n : Nat} (env : Collaborators n) (parser : CommandLineParser n)
    (inputImages : List (Image n ℚ)) : Step n (String × Option (Interpolator n)) :=
  let interpolationOption := parser.interpolation
  if interpolationOption.GetNumberOfValues > 0 then
    let whichInterpolator := ConvertToLowerCase (interpolationOption.GetValue 0)
    if whichInterpolator = "nearestneighbor" then
      .ok (whichInterpolator, some .NearestNeighbor)
    else if whichInterpolator = "bspline" then
      if interpolationOption.GetNumberOfParameters 0 > 0 then
        .ok (whichInterpolator,
          some (.BSpline (env.convertUnsigned (interpolationOption.GetParameter 0 0))))
      else
        .ok (whichInterpolator, some (.BSpline 3))
    else if whichInterpolator = "gaussian" then
      match kernelSigma env interpolationOption inputImages with
      | none => .error (Run.early .aborted)
      | some sigma =>
          let alpha : ℚ :=
            if interpolationOption.GetNumberOfParameters 0 > 1 then
              env.convertReal (interpolationOption.GetParameter 1 0)
            else 1
          .ok (whichInterpolator, some (.Gaussian sigma alpha))
    else if whichInterpolator = "multilabel" then
      match kernelSigma env interpolationOption inputImages with
      | none => .error (Run.early .aborted)
      | some sigma => .ok (whichInterpolator, some (.MultiLabel sigma 4))
    else
      .ok (whichInterpolator, none)
  else
    .ok ("linear", none)

/-- Lines 415–448: the interpolator given to the resample filter of one image. -/
def interpolatorFor {n : Nat} (whichInterpolator : String) (interpolator : Option (Interpolator n)) :
    Interpolator n :=
  match interpolator with
  | some chosen => chosen
  | none =>
      if whichInterpolator = "cosinewindowedsinc" then .WindowedSinc 3 .Cosine
      else if whichInterpolator = "hammingwindowedsinc" then .WindowedSinc 3 .Hamming
      else if whichInterpolator = "lanczoswindowedsinc" then .WindowedSinc 3 .Lanczos
      else if whichInterpolator = "blackmanwindowedsinc" then .WindowedSinc 3 .Blackman
      else .Linear

/-- Lines 398–404: the default voxel value. -/
def defaultPixelValue {n : Nat} (env : Collaborators n) (parser : CommandLineParser n) : ℚ :=
  if parser.defaultValue.GetNumberOfValues > 0 then
    env.convertReal (parser.defaultValue.GetValue 0)
  else 0

/-- Lines 406–457: every input image is resampled onto the reference grid. -/
def resampleAll {n : Nat} (env : Collaborators n) (referenceImage : Image n Unit)
    (compositeTransform : CompositeTransform n) (whichInterpolator : String)
    (interpolator : Option (Interpolator n)) (defaultValue : ℚ)
    (inputImages : List (Image n ℚ)) : List (Image n ℚ) :=
  inputImages.map fun inputImage =>
    ResampleImageFilter (env.evaluate (interpolatorFor whichInterpolator interpolator))
      inputImage referenceImage compositeTransform defaultValue

/-- Lines 494–566: the warped image is assembled (vector and tensor input, after the count
check) and written under `outputFileName`. -/
def writeWarpedImage {n : Nat} (inputImageType : Nat) (referenceImage : Image n Unit)
    (outputImages : List (Image n ℚ)) (outputFileName : String) : Run n :=
  if inputImageType = 1 then
    if h : outputImages.length ≠ n then
      { status := .EXIT_FAILURE, outputImages := outputImages, written := [] }
    else
      { status := .EXIT_SUCCESS, outputImages := outputImages
        written := [.vectorImage outputFileName
          (assembleComponents n referenceImage outputImages (not_not.mp h))] }
  else if inputImageType = 2 then
    if h : outputImages.length ≠ 6 then
      { status := .EXIT_FAILURE, outputImages := outputImages, written := [] }
    else
      { status := .EXIT_SUCCESS, outputImages := outputImages
        written := [.tensorImage outputFileName
          (assembleComponents 6 referenceImage outputImages (not_not.mp h))] }
  else
    match outputImages.head? with
    | some first =>
        { status := .EXIT_SUCCESS, outputImages := outputImages
          written := [.scalarImage outputFileName first] }
    | none => { status := .aborted, outputImages := outputImages, written := [] }

/-- Lines 459–570: the output option. -/
def writeOutput {n : Nat} (env : Collaborators n) (parser : CommandLineParser n)
    (inputImageType : Nat) (referenceImage : Image n Unit)
    (compositeTransform : CompositeTransform n) (outputImages : List (Image n ℚ)) : Run n :=
  let outputOption := parser.output
  if outputOption.GetNumberOfValues > 0 then
    if outputOption.GetNumberOfParameters 0 > 1 ∧
        env.convertUnsigned (outputOption.GetParameter 0 1) ≠ 0 then
      { status := .EXIT_SUCCESS, outputImages := outputImages
        written := [.displacementField (outputOption.GetParameter 0 0)
          (TransformToDisplacementFieldSource referenceImage compositeTransform)] }
    else
      let outputFileName :=
        if outputOption.GetNumberOfParameters 0 > 1 ∧
            env.convertUnsigned (outputOption.GetParameter 0 1) = 0 then
          outputOption.GetParameter 0 0
        else
          outputOption.GetValue 0
      writeWarpedImage inputImageType referenceImage outputImages outputFileName
  else
    { status := .EXIT_SUCCESS, outputImages := outputImages, written := [] }

/-- The function template `antsApplyTransforms<Dimension>( parser, inputImageType )`
(lines 106–571), with `n` for `Dimension`. -/
def antsApplyTransforms {n : Nat} (env : Collaborators n) (parser : CommandLineParser n)
    (inputImageType : Nat) : Run n :=
  let steps : Step n (Run n) := do
    let inputs ← readInputs env parser inputImageType
    let referenceImage ← readReference env parser
    let inputImages ← correctAndSplit inputImageType inputs referenceImage
    let compositeTransform ← buildTransform parser
    let (whichInterpolator, interpolator) ← selectInterpolator env parser inputImages
    let defaultValue := defaultPixelValue env parser
    let outputImages :=
      resampleAll env referenceImage compositeTransform whichInterpolator interpolator
        defaultValue inputImages
    pure (writeOutput env parser inputImageType referenceImage compositeTransform outputImages)
  match steps with
  | .ok run => run
  | .error run => run

/-! ## Concrete data used to exercise the splitter, the resampler and the pipeline -/

/-- A two-voxel scalar image holding `value` everywhere, with identity direction. -/
def constantScalarImage (value : ℚ) : Image 3 ℚ :=
  { info := headerWithDirection identityDirection3, region := twoVoxelRegion,
    pixel := fun _ => value }

/-- A two-voxel vector image whose voxel at index `(x, _, _)` holds `(x, 10 + x, 7)`. -/
def rampVectorImage : Image 3 (Vec 3) :=
  { info := headerWithDirection identityDirection3, region := twoVoxelRegion,
    pixel := fun i => ![((i.getD 0 0 : Int) : ℚ), 10 + ((i.getD 0 0 : Int) : ℚ), 7] }

/-- A sampler for grids with identity direction, unit spacing and zero origin: the value of
the voxel whose centre is closest to the point. -/
def sampleNearestVoxel (image : Image 3 ℚ) (p : Point 3) : Option ℚ :=
  some (image.pixel [⌊p 0 + 1 / 2⌋, ⌊p 1 + 1 / 2⌋, ⌊p 2 + 1 / 2⌋])

/-- Collaborators for dimension 3: every file can be read, numbers are read with
`String.toNat?`, and every interpolator samples the nearest voxel. -/
def exampleCollaborators : Collaborators 3 :=
  { readScalarImage := fun _ => some (constantScalarImage 5)
    readVectorImage := fun _ => some rampVectorImage
    readTensorImage := fun _ => some (exampleTensorImage identityDirection3)
    readReferenceImage := fun _ => some (exampleReferenceImage identityDirection3)
    convertUnsigned := fun s => s.toNat?.getD 0
    convertReal := fun s => ((s.toNat?.getD 0 : Nat) : ℚ)
    convertRealVector := fun s => [((s.toNat?.getD 0 : Nat) : ℚ)]
    evaluate := fun _ => sampleNearestVoxel }

/-- The command line `-i moving.nii -r fixed.nii -o warped.nii -n <interpolation>`. -/
def exampleParser (interpolation : String) : CommandLineParser 3 :=
  { input := .single "moving.nii" []
    output := .single "warped.nii" []
    referenceImage := .single "fixed.nii" []
    transform := []
    interpolation := .single interpolation []
    defaultValue := .absent }

/-- The command line `-i moving.nii -r fixed.nii -o warped.nii -n <interpolation>[<parameters>]`. -/
def exampleParserWith (interpolation : String) (parameters : List String) : CommandLineParser 3 :=
  { exampleParser interpolation with interpolation := .single interpolation parameters }

/-- The command line `-r fixed.nii -o warped.nii`: a warped image is requested and no input
image is given. -/
def noInputParser : CommandLineParser 3 :=
  { exampleParser "linear" with input := .absent, interpolation := .absent }

/-! ## The pipeline in two parts: preparation (lines 131–393), resampling and output (395–570) -/

/-- What the pipeline holds when it reaches the default voxel value (line 395). -/
structure Prepared (n : Nat) where
  referenceImage : Image n Unit
  inputImages : List (Image n ℚ)
  compositeTransform : CompositeTransform n
  whichInterpolator : String
  interpolator : Option (Interpolator n)

/-- Lines 131–393 of `antsApplyTransforms<Dimension>`: input, reference image, direction
correction and split, transform and interpolation options. -/
def prepare {n : Nat} (env : Collaborators n) (parser : CommandLineParser n)
    (inputImageType : Nat) : Step n (Prepared n) := do
  let inputs ← readInputs env parser inputImageType
  let referenceImage ← readReference env parser
  let inputImages ← correctAndSplit inputImageType inputs referenceImage
  let compositeTransform ← buildTransform parser
  let (whichInterpolator, interpolator) ← selectInterpolator env parser inputImages
  pure { referenceImage := referenceImage, inputImages := inputImages,
         compositeTransform := compositeTransform, whichInterpolator := whichInterpolator,
         interpolator := interpolator }

/-- Lines 395–570 of `antsApplyTransforms<Dimension>`: the resampling loop, then the output
option. -/
def resampleAndWrite {n : Nat} (env : Collaborators n) (parser : CommandLineParser n)
    (inputImageType : Nat) (p : Prepared n) : Run n :=
  writeOutput env parser inputImageType p.referenceImage p.compositeTransform
    (resampleAll env p.referenceImage p.compositeTransform p.whichInterpolator p.interpolator
      (defaultPixelValue env parser) p.inputImages)

/-- The value of a string of decimal digits. -/
def decimalValue (s : String) : Nat :=
  s.data.foldl (fun value c => 10 * value + (c.toNat - 48)) 0

/-- The collaborators of `exampleCollaborators` with the numbers of the command line read as
decimal digits; a vector parameter is read as a single number. -/
def decimalCollaborators : Collaborators 3 :=
  { exampleCollaborators with
    convertUnsigned := decimalValue
    convertReal := fun s => ((decimalValue s : Nat) : ℚ)
    convertRealVector := fun s => [((decimalValue s : Nat) : ℚ)] }

/-! ## The entry point `antsApplyTransforms( args, out_stream )` (lines 735–947) -/

/-- What the entry point reads once `parser->Parse( argc, argv )` has run: `argc` (the
arguments and the command name), whether `--help` and `-h` convert to true, the
`reference-image`, `input-image-type` (a pointer that is tested for null) and
`dimensionality` options, the number of dimensions `imageIO` reports for the reference file
(`none`: no `imageIO` could be created), and `parser->Convert<unsigned int>`. -/
structure CommandLine where
  argc : Nat
  help : Bool
  shortHelp : Bool
  referenceImage : CommandLineOption
  inputImageType : Option CommandLineOption
  dimensionality : CommandLineOption
  imageDimension : Option Nat
  convertUnsigned : String → Nat

/-- A call `antsApplyTransforms<Dimension>( parser, inputImageType )` and its run. -/
structure PipelineCall where
  Dimension : Nat
  inputImageType : Nat
  run : Run Dimension

/-- A run of the entry point: how it ended, what it printed besides the menu, and the
per-dimension pipeline it called, if any. -/
structure EntryRun where
  status : Status
  messages : List String
  call : Option PipelineCall

/-- The statement `antsApplyTransforms<Dimension>( parser, inputImageType );` followed by
`break` and the `return EXIT_SUCCESS` of line 946: the value the pipeline returns is not
used. -/
def callPipeline (envs : (n : Nat) → Collaborators n) (parsers : (n : Nat) → CommandLineParser n)
    (Dimension inputImageType : Nat) : EntryRun :=
  let run := antsApplyTransforms (envs Dimension) (parsers Dimension) inputImageType
  { status := if run.status = .aborted then .aborted else .EXIT_SUCCESS
    messages := []
    call := some { Dimension := Dimension, inputImageType := inputImageType, run := run } }

/-- The entry point `antsApplyTransforms( args, out_stream )` (lines 735–947); `parsers n` is
the parser as `antsApplyTransforms<n>` reads it. -/
def antsApplyTransformsEntryPoint (envs : (n : Nat) → Collaborators n)
    (parsers : (n : Nat) → CommandLineParser n) (commandLine : CommandLine) : EntryRun :=
  if commandLine.argc < 2 ∨ commandLine.help = true then
    if commandLine.argc < 2 then
      { status := .EXIT_FAILURE, messages := [], call := none }
    else
      { status := .EXIT_SUCCESS, messages := [], call := none }
  else if commandLine.shortHelp = true then
    { status := .EXIT_SUCCESS, messages := [], call := none }
  else if commandLine.referenceImage.GetNumberOfValues > 0 then
    match commandLine.imageDimension with
    | none => { status := .aborted, messages := [], call := none }
    | some imageDimension =>
      let dimension :=
        if commandLine.dimensionality.GetNumberOfValues > 0 then
          commandLine.convertUnsigned (commandLine.dimensionality.GetValue 0)
        else imageDimension
      match dimension with
      | 2 =>
        match commandLine.inputImageType with
        | some inputImageTypeOption =>
          let inputImageType := inputImageTypeOption.GetValue 0
          if inputImageType = "scalar" ∨ inputImageType = "0" then
            callPipeline envs parsers 2 0
          else if inputImageType = "vector" ∨ inputImageType = "1" then
            callPipeline envs parsers 2 1
          else if inputImageType = "tensor" ∨ inputImageType = "2" then
            { status := .EXIT_SUCCESS
              messages := ["antsApplyTransforms is not implemented for 2-D tensor images."]
              call := none }
          else
            { status := .EXIT_FAILURE
              messages := ["Unrecognized input image type (cf --input-image-type option)."]
              call := none }
        | none => callPipeline envs parsers 2 0
      | 3 =>
        match commandLine.inputImageType with
        | some inputImageTypeOption =>
          let inputImageType := inputImageTypeOption.GetValue 0
          if inputImageType = "scalar" ∨ inputImageType = "0" then
            callPipeline envs parsers 3 0
          else if inputImageType = "vector" ∨ inputImageType = "1" then
            callPipeline envs parsers 3 1
          else if inputImageType = "tensor" ∨ inputImageType = "2" then
            callPipeline envs parsers 3 2
          else
            { status := .EXIT_FAILURE
              messages := ["Unrecognized input image type (cf --input-image-type option)."]
              call := none }
        | none => callPipeline envs parsers 3 0
      | 4 =>
        match commandLine.inputImageType with
        | some inputImageTypeOption =>
          let inputImageType := inputImageTypeOption.GetValue 0
          if inputImageType = "scalar" ∨ inputImageType = "0" then
            callPipeline envs parsers 4 0
          else if inputImageType = "vector" ∨ inputImageType = "1" then
            callPipeline envs parsers 4 1
          else if inputImageType = "tensor" ∨ inputImageType = "2" then
            { status := .EXIT_SUCCESS
              messages := ["antsApplyTransforms is not implemented for 4-D tensor images."]
              call := none }
          else
            { status := .EXIT_FAILURE
              messages := ["Unrecognized input image type (cf --input-image-type option)."]
              call := none }
        | none => callPipeline envs parsers 3 0
      | _ => { status := .EXIT_FAILURE, messages := ["Unsupported dimension"], call := none }
  else
    { status := .EXIT_FAILURE, messages := ["No reference image was specified."], call := none }

/-! ## Concrete command lines for the entry point -/

/-- A one-voxel image of any dimension with unit spacing, zero origin and identity
direction. -/
def singleVoxelImage (n : Nat) {α : Type} (value : α) : Image n α :=
  { info := { origin := fun _ => 0, spacing := fun _ => 1,
              direction := fun i j => if i = j then 1 else 0 }
    region := { index := List.replicate n 0, size := List.replicate n 1 }
    pixel := fun _ => value }

/-- Collaborators for every dimension: every file can be read and holds a one-voxel image,
numbers are read as decimal digits, every interpolator answers the value of the only voxel. -/
def readableCollaborators (n : Nat) : Collaborators n :=
  { readScalarImage := fun _ => some (singleVoxelImage n 5)
    readVectorImage := fun _ => some (singleVoxelImage n fun _ => 1)
    readTensorImage := fun _ => some (singleVoxelImage n fun _ => 1)
    readReferenceImage := fun _ => some (singleVoxelImage n ())
    convertUnsigned := decimalValue
    convertReal := fun s => ((decimalValue s : Nat) : ℚ)
    convertRealVector := fun s => [((decimalValue s : Nat) : ℚ)]
    evaluate := fun _ image _ => some (image.pixel (List.replicate n 0)) }

/-- The options of `-i moving.nii -r fixed.nii -o warped.nii` as every dimension reads them,
with the given transform entries. -/
def parsersWithTransforms (transform : (n : Nat) → List (TransformEntry n)) (n : Nat) :
    CommandLineParser n :=
  { input := .single "moving.nii" []
    output := .single "warped.nii" []
    referenceImage := .single "fixed.nii" []
    transform := transform n
    interpolation := .absent
    defaultValue := .absent }

/-- The entry point's view of `-i moving.nii -r fixed.nii -o warped.nii …` for a reference
file of the given number of dimensions and the given `input-image-type` option object. -/
def exampleCommandLine (imageDimension : Nat) (inputImageType : Option CommandLineOption) :
    CommandLine :=
  { argc := 7
    help := false
    shortHelp := false
    referenceImage := .single "fixed.nii" []
    inputImageType := inputImageType
    dimensionality := .absent
    imageDimension := some imageDimension
    convertUnsigned := decimalValue }

/-- The command line of `exampleParser "linear"` with `-t [doubling,1]`, a transform that
offers no inverse. -/
def noInverseParser : CommandLineParser 3 :=
  { exampleParser "linear" with transform := [{ transform := doubling, useInverse := true }] }

/-- The `input-image-type` option object as it is registered (lines 596–603), with its
default value "0" and no value from the command line. -/
def registeredInputImageType : CommandLineOption := .single "0" []

/-! ## Lemmas on the model -/

theorem foldl_add_eq_sum {ι : Type} (g : ι → ℚ) (l : List ι) (a : ℚ) :
    l.foldl (fun temp k => temp + g k) a = a + (l.map g).sum := by
  induction l generalizing a with
  | nil => simp
  | cons x xs ih => simp [ih, add_assoc]

theorem pre_multiply_apply {n : Nat} (v : Vec n) (M : Mat n) (i : Fin n) :
    pre_multiply v M i = ∑ k, M i k * v k := by
  unfold pre_multiply
  rw [foldl_add_eq_sum, zero_add, Fin.sum_univ_def]

theorem is_identity_iff {n : Nat} (A : Mat n) (tol : ℚ) :
    is_identity A tol = true ↔ ∀ i j, |A i j - (if i = j then 1 else 0)| ≤ tol := by
  unfold is_identity
  simp only [List.all_eq_true, List.mem_finRange, true_implies, Bool.not_eq_true',
    decide_eq_false_iff_not, not_lt, gt_iff_lt]
  constructor
  · intro h i j
    have := h i j
    by_cases hij : i = j
    · simpa [hij] using this
    · simpa [hij] using this
  · intro h i j
    have := h i j
    by_cases hij : i = j
    · simpa [hij] using this
    · simpa [hij] using this

theorem regionIndices_nodup (is : List Int) (ss : List Nat) : (regionIndices is ss).Nodup := by
  induction is generalizing ss with
  | nil => simp [regionIndices]
  | cons i is ih =>
    cases ss with
    | nil => simp [regionIndices]
    | cons s ss =>
      simp only [regionIndices]
      rw [List.nodup_flatMap]
      refine ⟨?_, ?_⟩
      · intro tail _
        refine (List.nodup_range s).map ?_
        intro a b hab
        simpa using hab
      · refine (ih ss).pairwise_of_forall_ne ?_
        intro t1 _ t2 _ hne
        intro x h1 h2
        simp only [List.mem_map, List.mem_range] at h1 h2
        obtain ⟨a, _, rfl⟩ := h1
        obtain ⟨b, _, hb⟩ := h2
        simp only [List.cons.injEq] at hb
        exact hne hb.2.symm

theorem foldl_update_apply {ι α : Type} [DecidableEq ι] (f : ι → α → α) (l : List ι)
    (hl : l.Nodup) (p : ι → α) (i : ι) :
    (i ∈ l → l.foldl (fun buf k => Function.update buf k (f k (buf k))) p i = f i (p i)) ∧
    (i ∉ l → l.foldl (fun buf k => Function.update buf k (f k (buf k))) p i = p i) := by
  induction l generalizing p with
  | nil => simp
  | cons x xs ih =>
    rw [List.nodup_cons] at hl
    rw [List.foldl_cons]
    obtain ⟨h1, h2⟩ := ih hl.2 (Function.update p x (f x (p x)))
    by_cases hix : i = x
    · subst hix
      refine ⟨fun _ => ?_, fun h => absurd (List.mem_cons_self _ _) h⟩
      rw [h2 hl.1, Function.update_same]
    · refine ⟨fun h => ?_, fun h => ?_⟩
      · rw [h1 ((List.mem_cons.mp h).resolve_left hix), Function.update_noteq hix]
      · rw [h2 (fun hm => h (List.mem_cons_of_mem _ hm)), Function.update_noteq hix]

theorem forEachPixel_pixel_mem {n : Nat} {α : Type} (img : Image n α) (f : α → α) (i : Index)
    (hi : i ∈ img.region.indices) : (img.forEachPixel f).pixel i = f (img.pixel i) :=
  (foldl_update_apply (fun _ => f) _ (regionIndices_nodup _ _) img.pixel i).1 hi

theorem forEachPixel_pixel_not_mem {n : Nat} {α : Type} (img : Image n α) (f : α → α)
    (i : Index) (hi : i ∉ img.region.indices) : (img.forEachPixel f).pixel i = img.pixel i :=
  (foldl_update_apply (fun _ => f) _ (regionIndices_nodup _ _) img.pixel i).2 hi

theorem forEachPixelWithIndex_pixel_mem {n : Nat} {α : Type} (img : Image n α)
    (f : Index → α → α) (i : Index) (hi : i ∈ img.region.indices) :
    (img.forEachPixelWithIndex f).pixel i = f i (img.pixel i) :=
  (foldl_update_apply f _ (regionIndices_nodup _ _) img.pixel i).1 hi

theorem foldl_update_finRange {m : Nat} {α : Type} (g : Fin m → α) (v : Fin m → α) :
    (List.finRange m).foldl (fun w k => Function.update w k (g k)) v = g := by
  funext k
  exact (foldl_update_apply (fun k _ => g k) _ (List.nodup_finRange m) v k).1
    (List.mem_finRange k)

theorem directionDifference_apply {n : Nat} (M R : Mat n) (r c : Fin n) :
    directionDifference M R r c = ∑ k, M k r * R k c := rfl

theorem is_identity_eq_false_of_far {n : Nat} (A : Mat n)
    (h : ∃ r c, directionTolerance < |A r c - (if r = c then 1 else 0)|) :
    is_identity A directionTolerance = false := by
  rw [← Bool.not_eq_true, is_identity_iff]
  obtain ⟨r, c, hrc⟩ := h
  exact fun hall => absurd (hall r c) (not_le.mpr hrc)

theorem CorrectImageVectorDirection_of_far {n : Nat} {β : Type} (moving : Image n (Vec n))
    (ref : Image n β)
    (h : ∃ r c, directionTolerance <
      |directionDifference moving.info.direction ref.info.direction r c - (if r = c then 1 else 0)|) :
    CorrectImageVectorDirection moving ref = moving.forEachPixel
      (fun vector => pre_multiply vector (directionDifference moving.info.direction ref.info.direction)) := by
  simp [CorrectImageVectorDirection, Image.GetDirection, is_identity_eq_false_of_far _ h]

theorem CorrectImageTensorDirection_of_far {β : Type} (moving : Image 3 Tensor)
    (ref : Image 3 β)
    (h : ∃ r c, directionTolerance <
      |directionDifference moving.info.direction ref.info.direction r c - (if r = c then 1 else 0)|) :
    CorrectImageTensorDirection moving ref = moving.forEachPixel
      (correctTensor (directionDifference moving.info.direction ref.info.direction)) := by
  simp [CorrectImageTensorDirection, Image.GetDirection, is_identity_eq_false_of_far _ h]

theorem CorrectImageVectorDirection_of_near {n : Nat} {β : Type} (moving : Image n (Vec n))
    (ref : Image n β)
    (h : ∀ r c,
      |directionDifference moving.info.direction ref.info.direction r c - (if r = c then 1 else 0)|
        ≤ directionTolerance) :
    CorrectImageVectorDirection moving ref = moving := by
  simp [CorrectImageVectorDirection, Image.GetDirection, (is_identity_iff _ _).mpr h]

theorem CorrectImageTensorDirection_of_near {β : Type} (moving : Image 3 Tensor)
    (ref : Image 3 β)
    (h : ∀ r c,
      |directionDifference moving.info.direction ref.info.direction r c - (if r = c then 1 else 0)|
        ≤ directionTolerance) :
    CorrectImageTensorDirection moving ref = moving := by
  simp [CorrectImageTensorDirection, Image.GetDirection, (is_identity_iff _ _).mpr h]

theorem correctTensor_eq (D : Mat 3) (t : Tensor) :
    correctTensor D t =
      (fun S : Matrix (Fin 3) (Fin 3) ℚ => ![S 0 0, S 0 1, S 0 2, S 1 1, S 1 2, S 2 2])
        (Matrix.of D * !![t 0, t 1, t 2; t 1, t 3, t 4; t 2, t 4, t 5] * (Matrix.of D).transpose) := by
  rfl


theorem vec6_val_five (a b c d e f : ℚ) : (![a, b, c, d, e, f] : Fin 6 → ℚ) 5 = f := rfl

/-! ## Direction Reorienter: the claims -/

/-- C1: for a 3-D moving tensor image and a reference image whose `D = transpose(M) · R` is
not the identity within tolerance 1e-5, `CorrectImageTensorDirection` replaces every voxel
`(t0,…,t5)` of the moving image's region by `(S00, S01, S02, S11, S12, S22)`, where `T` is the
symmetric matrix `[[t0,t1,t2],[t1,t3,t4],[t2,t4,t5]]` and `S = D · T · transpose(D)`. -/
theorem CorrectImageTensorDirection_replaces_voxels {β : Type} (moving : Image 3 Tensor)
    (ref : Image 3 β)
    (hD : ∃ r c, (1 : ℚ) / 100000 <
      |((Matrix.of moving.info.direction).transpose * Matrix.of ref.info.direction) r c
        - (if r = c then 1 else 0)|)
    (i : Index) (hi : i ∈ moving.region.indices) :
    let D : Matrix (Fin 3) (Fin 3) ℚ :=
      (Matrix.of moving.info.direction).transpose * Matrix.of ref.info.direction
    let t : Tensor := moving.pixel i
    let T : Matrix (Fin 3) (Fin 3) ℚ := !![t 0, t 1, t 2; t 1, t 3, t 4; t 2, t 4, t 5]
    let S : Matrix (Fin 3) (Fin 3) ℚ := D * T * D.transpose
    (CorrectImageTensorDirection moving ref).pixel i = ![S 0 0, S 0 1, S 0 2, S 1 1, S 1 2, S 2 2] := by
  intro D t T S
  rw [CorrectImageTensorDirection_of_far moving ref hD, forEachPixel_pixel_mem _ _ _ hi]
  rfl

/-- C1 at a concrete input: identity moving direction, quarter-turn reference direction; the
voxel `(1,2,3,4,5,6)` becomes `(4,-2,-5,1,3,6)`. -/
theorem CorrectImageTensorDirection_replaces_voxels_witness :
    (∃ r c, (1 : ℚ) / 100000 <
      |((Matrix.of (exampleTensorImage identityDirection3).info.direction).transpose
          * Matrix.of (exampleReferenceImage quarterTurnDirection3).info.direction) r c
        - (if r = c then 1 else 0)|) ∧
    ([0, 0, 0] : Index) ∈ (exampleTensorImage identityDirection3).region.indices ∧
    (CorrectImageTensorDirection (exampleTensorImage identityDirection3)
      (exampleReferenceImage quarterTurnDirection3)).pixel [0, 0, 0] = ![4, -2, -5, 1, 3, 6] := by
  have hD : ∃ r c, (1 : ℚ) / 100000 <
      |((Matrix.of (exampleTensorImage identityDirection3).info.direction).transpose
          * Matrix.of (exampleReferenceImage quarterTurnDirection3).info.direction) r c
        - (if r = c then 1 else 0)| := by
    refine ⟨0, 0, ?_⟩
    simp only [Matrix.mul_apply, Matrix.transpose_apply, Matrix.of_apply, Fin.sum_univ_three]
    norm_num [exampleTensorImage, exampleReferenceImage,
      headerWithDirection, identityDirection3, quarterTurnDirection3]
  have hi : ([0, 0, 0] : Index) ∈ (exampleTensorImage identityDirection3).region.indices := by
    decide
  refine ⟨hD, hi, (CorrectImageTensorDirection_replaces_voxels _ _ hD _ hi).trans ?_⟩
  simp only [Matrix.mul_apply, Matrix.transpose_apply, Matrix.of_apply, Fin.sum_univ_three]
  simp [exampleTensorImage, exampleReferenceImage, headerWithDirection, identityDirection3,
    quarterTurnDirection3, vec6_val_five, Matrix.vecHead, Matrix.vecTail]

/-- C2: for a moving vector image of dimension `n` and a reference image whose
`D = transpose(M) · R` is not the identity within tolerance 1e-5, `CorrectImageVectorDirection`
replaces every voxel vector `v` of the moving image's region by the matrix-vector product
`D · v`: component `r` of the result is the sum over `j` of `D(r,j) · v(j)`. -/
theorem CorrectImageVectorDirection_replaces_voxels {n : Nat} {β : Type}
    (moving : Image n (Vec n)) (ref : Image n β)
    (hD : ∃ r c, (1 : ℚ) / 100000 <
      |((Matrix.of moving.info.direction).transpose * Matrix.of ref.info.direction) r c
        - (if r = c then 1 else 0)|)
    (i : Index) (hi : i ∈ moving.region.indices) (r : Fin n) :
    let D : Matrix (Fin n) (Fin n) ℚ :=
      (Matrix.of moving.info.direction).transpose * Matrix.of ref.info.direction
    (CorrectImageVectorDirection moving ref).pixel i r = ∑ j, D r j * moving.pixel i j := by
  intro D
  rw [CorrectImageVectorDirection_of_far moving ref hD, forEachPixel_pixel_mem _ _ _ hi,
    pre_multiply_apply]
  rfl

/-- C2 at a concrete input: identity moving direction, quarter-turn reference direction `D`; the
voxel `v = (1,2,3)` becomes `D · v = (-2,1,3)`, which is not `transpose(D) · v = v · D = (2,-1,3)`. -/
theorem CorrectImageVectorDirection_replaces_voxels_witness :
    (∃ r c, (1 : ℚ) / 100000 <
      |((Matrix.of (exampleVectorImage identityDirection3).info.direction).transpose
          * Matrix.of (exampleReferenceImage quarterTurnDirection3).info.direction) r c
        - (if r = c then 1 else 0)|) ∧
    ([0, 0, 0] : Index) ∈ (exampleVectorImage identityDirection3).region.indices ∧
    (CorrectImageVectorDirection (exampleVectorImage identityDirection3)
      (exampleReferenceImage quarterTurnDirection3)).pixel [0, 0, 0] 0 = -2 ∧
    (∑ j, quarterTurnDirection3 j 0 * (exampleVectorImage identityDirection3).pixel [0, 0, 0] j) = 2 := by
  have hD : ∃ r c, (1 : ℚ) / 100000 <
      |((Matrix.of (exampleVectorImage identityDirection3).info.direction).transpose
          * Matrix.of (exampleReferenceImage quarterTurnDirection3).info.direction) r c
        - (if r = c then 1 else 0)| := by
    refine ⟨0, 0, ?_⟩
    simp only [Matrix.mul_apply, Matrix.transpose_apply, Matrix.of_apply, Fin.sum_univ_three]
    norm_num [exampleVectorImage, exampleReferenceImage,
      headerWithDirection, identityDirection3, quarterTurnDirection3]
  have hi : ([0, 0, 0] : Index) ∈ (exampleVectorImage identityDirection3).region.indices := by
    decide
  refine ⟨hD, hi,
    (CorrectImageVectorDirection_replaces_voxels _ _ hD _ hi 0).trans ?_, ?_⟩
  · simp only [Matrix.mul_apply, Matrix.transpose_apply, Matrix.of_apply, Fin.sum_univ_three]
    simp [exampleVectorImage, exampleReferenceImage, headerWithDirection, identityDirection3,
      quarterTurnDirection3, Matrix.vecHead, Matrix.vecTail]
  · simp [Fin.sum_univ_three, exampleVectorImage, quarterTurnDirection3, Matrix.vecHead,
      Matrix.vecTail]

/-- C3: if every entry of `D = transpose(M) · R` differs from the identity's entry by at most
1e-5, `CorrectImageVectorDirection` and `CorrectImageTensorDirection` return the moving image
as it was: the same buffer at every voxel, also when `D` is not exactly the identity. -/
theorem CorrectImageDirection_noop_within_tolerance {n : Nat} {β γ : Type}
    (movingVector : Image n (Vec n)) (refV : Image n β)
    (movingTensor : Image 3 Tensor) (refT : Image 3 γ)
    (hV : ∀ r c,
      |((Matrix.of movingVector.info.direction).transpose * Matrix.of refV.info.direction) r c
        - (if r = c then 1 else 0)| ≤ (1 : ℚ) / 100000)
    (hT : ∀ r c,
      |((Matrix.of movingTensor.info.direction).transpose * Matrix.of refT.info.direction) r c
        - (if r = c then 1 else 0)| ≤ (1 : ℚ) / 100000) :
    (∀ i, (CorrectImageVectorDirection movingVector refV).pixel i = movingVector.pixel i) ∧
    (∀ i, (CorrectImageTensorDirection movingTensor refT).pixel i = movingTensor.pixel i) := by
  rw [CorrectImageVectorDirection_of_near movingVector refV hV,
    CorrectImageTensorDirection_of_near movingTensor refT hT]
  exact ⟨fun _ => rfl, fun _ => rfl⟩

theorem nearIdentity_within_tolerance (r c : Fin 3) :
    |((Matrix.of identityDirection3).transpose * Matrix.of nearIdentityDirection3) r c
        - (if r = c then 1 else 0)| ≤ (1 : ℚ) / 100000 := by
  simp only [Matrix.mul_apply, Matrix.transpose_apply, Matrix.of_apply, Fin.sum_univ_three]
  fin_cases r <;> fin_cases c <;>
    norm_num [identityDirection3, nearIdentityDirection3, Matrix.vecHead, Matrix.vecTail, abs_le, Fin.ext_iff]

/-- C3 at a concrete input: the reference direction is off the identity by one millionth in one
entry (so `D` is not the identity), and both buffers are returned unchanged. -/
theorem CorrectImageDirection_noop_within_tolerance_witness :
    (∀ r c, |((Matrix.of identityDirection3).transpose * Matrix.of nearIdentityDirection3) r c
        - (if r = c then 1 else 0)| ≤ (1 : ℚ) / 100000) ∧
    directionDifference identityDirection3 nearIdentityDirection3 0 0 ≠ 1 ∧
    (∀ i, (CorrectImageVectorDirection (exampleVectorImage identityDirection3)
        (exampleReferenceImage nearIdentityDirection3)).pixel i
      = (exampleVectorImage identityDirection3).pixel i) ∧
    (∀ i, (CorrectImageTensorDirection (exampleTensorImage identityDirection3)
        (exampleReferenceImage nearIdentityDirection3)).pixel i
      = (exampleTensorImage identityDirection3).pixel i) :=
  ⟨nearIdentity_within_tolerance,
    by norm_num [directionDifference, matMul, GetTranspose, Fin.sum_univ_three,
        identityDirection3, nearIdentityDirection3, Matrix.vecHead, Matrix.vecTail],
    CorrectImageDirection_noop_within_tolerance
      (exampleVectorImage identityDirection3) (exampleReferenceImage nearIdentityDirection3)
      (exampleTensorImage identityDirection3) (exampleReferenceImage nearIdentityDirection3)
      nearIdentity_within_tolerance nearIdentity_within_tolerance⟩


/-- C4 fails as stated: the moving and the reference image share the non-singular direction
`diag(2,1,1)`, yet `D = transpose(M) · M = diag(4,1,1)` is not the identity and both
reorienters change the voxel: `(1,2,3)` becomes `(4,2,3)`, `(1,2,3,4,5,6)` becomes
`(16,8,12,4,5,6)`. -/
theorem CorrectImageDirection_equal_directions_counterexample :
    (exampleVectorImage scaledDirection3).info.direction
      = (exampleReferenceImage scaledDirection3).info.direction ∧
    (exampleTensorImage scaledDirection3).info.direction
      = (exampleReferenceImage scaledDirection3).info.direction ∧
    Matrix.det (Matrix.of scaledDirection3) ≠ 0 ∧
    (CorrectImageVectorDirection (exampleVectorImage scaledDirection3)
        (exampleReferenceImage scaledDirection3)).pixel [0, 0, 0] = ![4, 2, 3] ∧
    (CorrectImageVectorDirection (exampleVectorImage scaledDirection3)
        (exampleReferenceImage scaledDirection3)).pixel [0, 0, 0]
      ≠ (exampleVectorImage scaledDirection3).pixel [0, 0, 0] ∧
    (CorrectImageTensorDirection (exampleTensorImage scaledDirection3)
        (exampleReferenceImage scaledDirection3)).pixel [0, 0, 0] = ![16, 8, 12, 4, 5, 6] ∧
    (CorrectImageTensorDirection (exampleTensorImage scaledDirection3)
        (exampleReferenceImage scaledDirection3)).pixel [0, 0, 0]
      ≠ (exampleTensorImage scaledDirection3).pixel [0, 0, 0] := by
  have hfarV : ∃ r c, directionTolerance <
      |directionDifference (exampleVectorImage scaledDirection3).info.direction
          (exampleReferenceImage scaledDirection3).info.direction r c
        - (if r = c then 1 else 0)| := by
    refine ⟨0, 0, ?_⟩
    norm_num [directionDifference, matMul, GetTranspose, Fin.sum_univ_three, scaledDirection3,
      directionTolerance, Matrix.vecHead, Matrix.vecTail, exampleVectorImage,
      exampleReferenceImage, headerWithDirection]
  have hfarT : ∃ r c, directionTolerance <
      |directionDifference (exampleTensorImage scaledDirection3).info.direction
          (exampleReferenceImage scaledDirection3).info.direction r c
        - (if r = c then 1 else 0)| := hfarV
  have hi : ([0, 0, 0] : Index) ∈ twoVoxelRegion.indices := by decide
  have hv : (CorrectImageVectorDirection (exampleVectorImage scaledDirection3)
        (exampleReferenceImage scaledDirection3)).pixel [0, 0, 0] = ![4, 2, 3] := by
    rw [CorrectImageVectorDirection_of_far _ _ hfarV, forEachPixel_pixel_mem _ _ _ hi]
    funext r
    rw [pre_multiply_apply]
    simp only [directionDifference_apply, Fin.sum_univ_three]
    fin_cases r <;>
      simp [scaledDirection3, exampleVectorImage, exampleReferenceImage, headerWithDirection,
        Matrix.vecHead, Matrix.vecTail]
    norm_num
  have ht : (CorrectImageTensorDirection (exampleTensorImage scaledDirection3)
        (exampleReferenceImage scaledDirection3)).pixel [0, 0, 0] = ![16, 8, 12, 4, 5, 6] := by
    rw [CorrectImageTensorDirection_of_far _ _ hfarT, forEachPixel_pixel_mem _ _ _ hi]
    simp only [correctTensor, matrixToTensor, tensorToMatrix, matMul, GetTranspose,
      directionDifference_apply, Fin.sum_univ_three]
    simp [scaledDirection3, exampleTensorImage, exampleReferenceImage, headerWithDirection,
      Matrix.vecHead, Matrix.vecTail, vec6_val_five]
    norm_num
  refine ⟨rfl, rfl, ?_, hv, ?_, ht, ?_⟩
  · simp [Matrix.det_fin_three, scaledDirection3]
  · rw [hv]
    intro h
    have := congrFun h 0
    simp [exampleVectorImage] at this
  · rw [ht]
    intro h
    have := congrFun h 0
    simp [exampleTensorImage] at this

/-- C4, amended: if the moving and the reference image both have direction `M` and
`transpose(M) · M` is the identity within tolerance 1e-5 (as for every orthogonal `M`), then
`CorrectImageVectorDirection` and `CorrectImageTensorDirection` leave every voxel unchanged. -/
theorem CorrectImageDirection_noop_equal_orthonormal {n : Nat} {β γ : Type}
    (movingVector : Image n (Vec n)) (refV : Image n β)
    (movingTensor : Image 3 Tensor) (refT : Image 3 γ)
    (hVeq : refV.info.direction = movingVector.info.direction)
    (hTeq : refT.info.direction = movingTensor.info.direction)
    (hV : ∀ r c,
      |((Matrix.of movingVector.info.direction).transpose * Matrix.of movingVector.info.direction) r c
        - (if r = c then 1 else 0)| ≤ (1 : ℚ) / 100000)
    (hT : ∀ r c,
      |((Matrix.of movingTensor.info.direction).transpose * Matrix.of movingTensor.info.direction) r c
        - (if r = c then 1 else 0)| ≤ (1 : ℚ) / 100000) :
    (∀ i, (CorrectImageVectorDirection movingVector refV).pixel i = movingVector.pixel i) ∧
    (∀ i, (CorrectImageTensorDirection movingTensor refT).pixel i = movingTensor.pixel i) := by
  rw [CorrectImageVectorDirection_of_near movingVector refV (by rw [hVeq]; exact hV),
    CorrectImageTensorDirection_of_near movingTensor refT (by rw [hTeq]; exact hT)]
  exact ⟨fun _ => rfl, fun _ => rfl⟩

theorem quarterTurn_orthonormal (r c : Fin 3) :
    |((Matrix.of quarterTurnDirection3).transpose * Matrix.of quarterTurnDirection3) r c
        - (if r = c then 1 else 0)| ≤ (1 : ℚ) / 100000 := by
  simp only [Matrix.mul_apply, Matrix.transpose_apply, Matrix.of_apply, Fin.sum_univ_three]
  fin_cases r <;> fin_cases c <;>
    norm_num [quarterTurnDirection3, Matrix.vecHead, Matrix.vecTail, abs_le, Fin.ext_iff]

/-- C4 (amended) at a concrete input: both images have the quarter-turn direction, which is
orthogonal and not the identity, and both buffers are returned unchanged. -/
theorem CorrectImageDirection_noop_equal_orthonormal_witness :
    (∀ r c,
      |((Matrix.of quarterTurnDirection3).transpose * Matrix.of quarterTurnDirection3) r c
        - (if r = c then 1 else 0)| ≤ (1 : ℚ) / 100000) ∧
    (∀ i, (CorrectImageVectorDirection (exampleVectorImage quarterTurnDirection3)
        (exampleReferenceImage quarterTurnDirection3)).pixel i
      = (exampleVectorImage quarterTurnDirection3).pixel i) ∧
    (∀ i, (CorrectImageTensorDirection (exampleTensorImage quarterTurnDirection3)
        (exampleReferenceImage quarterTurnDirection3)).pixel i
      = (exampleTensorImage quarterTurnDirection3).pixel i) :=
  ⟨quarterTurn_orthonormal,
    CorrectImageDirection_noop_equal_orthonormal
      (exampleVectorImage quarterTurnDirection3) (exampleReferenceImage quarterTurnDirection3)
      (exampleTensorImage quarterTurnDirection3) (exampleReferenceImage quarterTurnDirection3)
      rfl rfl quarterTurn_orthonormal quarterTurn_orthonormal⟩

theorem identityDirection3_apply (i j : Fin 3) :
    identityDirection3 i j = if i = j then 1 else 0 := by
  fin_cases i <;> fin_cases j <;> simp [identityDirection3, Fin.ext_iff, Matrix.vecHead, Matrix.vecTail]

theorem directionDifference_identity_left (R : Mat 3) :
    directionDifference identityDirection3 R = R := by
  funext r c
  rw [directionDifference_apply]
  simp [identityDirection3_apply]

theorem pre_multiply_unitX (D : Mat 3) (r : Fin 3) : pre_multiply ![1, 0, 0] D r = D r 0 := by
  rw [pre_multiply_apply]
  simp [Fin.sum_univ_three, Matrix.vecHead, Matrix.vecTail]

/-- C5: with the identity as moving direction and a signed permutation matrix `P` (a 90-degree
axis swap) as reference direction, `CorrectImageVectorDirection` maps a voxel holding the unit
vector along X, `(1,0,0)`, to `P · (1,0,0)`, the first column of `P`: its component along the
mapped axis `σ 0` is `1` or `-1` and every other component is `0`. -/
theorem CorrectImageVectorDirection_axis_swap {β : Type} (σ : Equiv.Perm (Fin 3))
    (negative : Fin 3 → Bool) (moving : Image 3 (Vec 3)) (ref : Image 3 β)
    (hM : moving.info.direction = identityDirection3)
    (hR : ref.info.direction = signedPermutation σ negative)
    (i : Index) (hi : i ∈ moving.region.indices) (hv : moving.pixel i = ![1, 0, 0]) :
    (∀ r, (CorrectImageVectorDirection moving ref).pixel i r
        = ∑ j, signedPermutation σ negative r j * (![1, 0, 0] : Vec 3) j) ∧
    (∀ r, (CorrectImageVectorDirection moving ref).pixel i r = signedPermutation σ negative r 0) ∧
    ((CorrectImageVectorDirection moving ref).pixel i (σ 0) = 1 ∨
      (CorrectImageVectorDirection moving ref).pixel i (σ 0) = -1) ∧
    (∀ r, r ≠ σ 0 → (CorrectImageVectorDirection moving ref).pixel i r = 0) := by
  have hcol : ∀ r, (CorrectImageVectorDirection moving ref).pixel i r
      = signedPermutation σ negative r 0 := by
    intro r
    by_cases hnear : ∀ r c,
        |directionDifference moving.info.direction ref.info.direction r c
          - (if r = c then 1 else 0)| ≤ directionTolerance
    · rw [CorrectImageVectorDirection_of_near moving ref hnear, hv]
      rw [hM, hR, directionDifference_identity_left] at hnear
      have h00 := hnear 0 0
      have hr0 := hnear r 0
      simp only [signedPermutation, directionTolerance] at h00 hr0 ⊢
      by_cases hσ : (0 : Fin 3) = σ 0
      · cases hneg : negative 0
        · fin_cases r <;> simp [← hσ, Fin.ext_iff, Matrix.vecHead, Matrix.vecTail]
        · rw [if_pos hσ, hneg] at h00
          norm_num [abs_le] at h00
      · rw [if_neg hσ] at h00
        norm_num [abs_le] at h00
    · push_neg at hnear
      obtain ⟨a, b, hab⟩ := hnear
      rw [CorrectImageVectorDirection_of_far moving ref ⟨a, b, hab⟩,
        forEachPixel_pixel_mem _ _ _ hi, hv, pre_multiply_unitX, hM, hR,
        directionDifference_identity_left]
  refine ⟨fun r => ?_, hcol, ?_, fun r hr => ?_⟩
  · rw [hcol]
    simp [Fin.sum_univ_three, Matrix.vecHead, Matrix.vecTail]
  · rw [hcol]
    cases hneg : negative 0 <;> simp [signedPermutation, hneg]
  · rw [hcol]
    simp [signedPermutation, hr]

/-- C5 at a concrete input: the reference direction is the quarter turn sending X to Y (the
signed permutation with `σ = (0 1)` and a minus sign in column 1); `(1,0,0)` becomes `(0,1,0)`. -/
theorem CorrectImageVectorDirection_axis_swap_witness :
    signedPermutation (Equiv.swap 0 1) (fun j => decide (j = 1)) = quarterTurnDirection3 ∧
    ([0, 0, 0] : Index) ∈ (unitXVectorImage identityDirection3).region.indices ∧
    (unitXVectorImage identityDirection3).pixel [0, 0, 0] = ![1, 0, 0] ∧
    (∀ r, (CorrectImageVectorDirection (unitXVectorImage identityDirection3)
        (exampleReferenceImage (signedPermutation (Equiv.swap 0 1) (fun j => decide (j = 1))))).pixel
          [0, 0, 0] r = (![0, 1, 0] : Vec 3) r) := by
  refine ⟨?_, by decide, rfl, fun r => ?_⟩
  · funext i j
    fin_cases i <;> fin_cases j <;>
      simp [signedPermutation, quarterTurnDirection3, Equiv.swap_apply_def, Fin.ext_iff,
        Matrix.vecHead, Matrix.vecTail]
  · rw [(CorrectImageVectorDirection_axis_swap (Equiv.swap 0 1) (fun j => decide (j = 1))
      (unitXVectorImage identityDirection3)
      (exampleReferenceImage (signedPermutation (Equiv.swap 0 1) (fun j => decide (j = 1))))
      rfl rfl [0, 0, 0] (by decide) rfl).2.1 r]
    fin_cases r <;>
      simp [signedPermutation, Equiv.swap_apply_def, Fin.ext_iff, Matrix.vecHead, Matrix.vecTail]

/-! ## Transform stack, Assembler and round trip: the claims -/

theorem GetCompositeTransform_pair {n : Nat} (A B : Transform n) :
    GetCompositeTransformFromParserOption
        [{ transform := A, useInverse := false }, { transform := B, useInverse := false }]
      = some { stack := [identityTransform, A.forward, B.forward] } := by
  simp [GetCompositeTransformFromParserOption, TransformEntry.mapping, CompositeTransform.push,
    CompositeTransform.base]

/-- C6: for transforms given in the order `A` then `B`, the composite transform the pipeline
builds and hands to the resampler maps every point `p` to `identity(A(B(p)))`: the last
transform pushed is applied first and the implicit identity last; this is not `B(A(p))`, as
the translation by 1 for `A` and the doubling for `B` show at `p = 0`. -/
theorem composite_evaluation_order :
    (∀ (n : Nat) (parser : CommandLineParser n) (A B : Transform n) (p : Point n),
      ∃ c, buildTransform { parser with transform :=
          [{ transform := A, useInverse := false }, { transform := B, useInverse := false }] }
            = .ok c ∧
        c.TransformPoint p = identityTransform (A.forward (B.forward p))) ∧
    (∃ c, GetCompositeTransformFromParserOption
          [{ transform := translation (fun _ : Fin 1 => 1), useInverse := false },
           { transform := doubling, useInverse := false }] = some c ∧
        c.TransformPoint (fun _ => 0) 0 = 1 ∧
        (doubling : Transform 1).forward
          ((translation (fun _ : Fin 1 => 1)).forward (fun _ => 0)) 0 = 2) := by
  refine ⟨fun n parser A B p => ⟨{ stack := [identityTransform, A.forward, B.forward] }, ?_, rfl⟩,
    ⟨_, GetCompositeTransform_pair _ _, ?_, ?_⟩⟩
  · simp only [buildTransform, GetCompositeTransform_pair]
  · simp [CompositeTransform.TransformPoint, identityTransform, translation, doubling]
  · simp [translation, doubling]

theorem assembleComponents_pixel {n : Nat} {β : Type} (m : Nat) (referenceImage : Image n β)
    (outputImages : List (Image n ℚ)) (h : outputImages.length = m) (i : Index)
    (hi : i ∈ referenceImage.region.indices) (k : Fin m) :
    (assembleComponents m referenceImage outputImages h).pixel i k
      = (outputImages.get (k.cast h.symm)).pixel i := by
  have key := forEachPixelWithIndex_pixel_mem
    ({ info := referenceImage.info, region := referenceImage.region, pixel := fun _ _ => 0 } :
      Image n (Fin m → ℚ))
    (fun index vector => (List.finRange m).foldl
      (fun v k => Function.update v k ((outputImages.get (k.cast h.symm)).GetPixel index)) vector)
    i hi
  have inner := foldl_update_finRange
    (fun k : Fin m => (outputImages.get (k.cast h.symm)).GetPixel i) (fun _ => (0 : ℚ))
  exact (congrFun key k).trans (congrFun inner k)

/-- C7: when the count check passes, the image written for vector input (`Dimension`
components) and for tensor input (6 components) has the reference image's information and
region, and at every index of that region its `k`-th component is the value of
`outputImages[k]` at that index, unchanged. -/
theorem writeWarpedImage_assembles {n : Nat} (referenceImage : Image n Unit)
    (vectorOutputs tensorOutputs : List (Image n ℚ)) (outputFileName : String)
    (hV : vectorOutputs.length = n) (hT : tensorOutputs.length = 6) :
    (∃ image, (writeWarpedImage 1 referenceImage vectorOutputs outputFileName).written
          = [.vectorImage outputFileName image] ∧
        image.info = referenceImage.info ∧ image.region = referenceImage.region ∧
        ∀ i ∈ referenceImage.region.indices, ∀ (k : Fin n) (component : Image n ℚ),
          vectorOutputs.get? k.val = some component → image.pixel i k = component.GetPixel i) ∧
    (∃ image, (writeWarpedImage 2 referenceImage tensorOutputs outputFileName).written
          = [.tensorImage outputFileName image] ∧
        image.info = referenceImage.info ∧ image.region = referenceImage.region ∧
        ∀ i ∈ referenceImage.region.indices, ∀ (k : Fin 6) (component : Image n ℚ),
          tensorOutputs.get? k.val = some component → image.pixel i k = component.GetPixel i) := by
  constructor
  · refine ⟨assembleComponents n referenceImage vectorOutputs hV, ?_, rfl, rfl, ?_⟩
    · simp [writeWarpedImage, hV]
    · intro i hi k component hk
      rw [assembleComponents_pixel n referenceImage vectorOutputs hV i hi k]
      rw [List.get?_eq_some] at hk
      obtain ⟨hlt, hget⟩ := hk
      rw [← hget]
      rfl
  · refine ⟨assembleComponents 6 referenceImage tensorOutputs hT, ?_, rfl, rfl, ?_⟩
    · simp [writeWarpedImage, hT]
    · intro i hi k component hk
      rw [assembleComponents_pixel 6 referenceImage tensorOutputs hT i hi k]
      rw [List.get?_eq_some] at hk
      obtain ⟨hlt, hget⟩ := hk
      rw [← hget]
      rfl

/-- C7 at a concrete input: three constant images `1, 2, 3` for vector input and six constant
images `1, …, 6` for tensor input, on the two-voxel reference grid. -/
theorem writeWarpedImage_assembles_witness :
    (∃ image, (writeWarpedImage 1 (exampleReferenceImage quarterTurnDirection3)
          ([1, 2, 3].map constantScalarImage) "warped.nii").written
          = [.vectorImage "warped.nii" image] ∧
        image.info = (exampleReferenceImage quarterTurnDirection3).info ∧
        image.region = (exampleReferenceImage quarterTurnDirection3).region ∧
        ∀ i ∈ (exampleReferenceImage quarterTurnDirection3).region.indices,
          ∀ (k : Fin 3) (component : Image 3 ℚ),
            ([1, 2, 3].map constantScalarImage).get? k.val = some component →
              image.pixel i k = component.GetPixel i) ∧
    (∃ image, (writeWarpedImage 2 (exampleReferenceImage quarterTurnDirection3)
          ([1, 2, 3, 4, 5, 6].map constantScalarImage) "warped.nii").written
          = [.tensorImage "warped.nii" image] ∧
        image.info = (exampleReferenceImage quarterTurnDirection3).info ∧
        image.region = (exampleReferenceImage quarterTurnDirection3).region ∧
        ∀ i ∈ (exampleReferenceImage quarterTurnDirection3).region.indices,
          ∀ (k : Fin 6) (component : Image 3 ℚ),
            ([1, 2, 3, 4, 5, 6].map constantScalarImage).get? k.val = some component →
              image.pixel i k = component.GetPixel i) :=
  writeWarpedImage_assembles (exampleReferenceImage quarterTurnDirection3)
    ([1, 2, 3].map constantScalarImage) ([1, 2, 3, 4, 5, 6].map constantScalarImage)
    "warped.nii" rfl rfl

/-- C9: at the count check of the warped-image output (lines 494–500 and 528–534), a number
of resampled images different from `Dimension` for vector input, or different from 6 for
tensor input, makes the pipeline return `EXIT_FAILURE` with no image assembled or written;
the same holds for the whole output step whenever the output option asks for the warped
image. -/
theorem writeWarpedImage_wrong_count {n : Nat} (referenceImage : Image n Unit)
    (vectorOutputs tensorOutputs : List (Image n ℚ)) (outputFileName : String)
    (hV : vectorOutputs.length ≠ n) (hT : tensorOutputs.length ≠ 6) :
    ((writeWarpedImage 1 referenceImage vectorOutputs outputFileName).status = .EXIT_FAILURE ∧
      (writeWarpedImage 1 referenceImage vectorOutputs outputFileName).written = []) ∧
    ((writeWarpedImage 2 referenceImage tensorOutputs outputFileName).status = .EXIT_FAILURE ∧
      (writeWarpedImage 2 referenceImage tensorOutputs outputFileName).written = []) ∧
    (∀ (env : Collaborators n) (parser : CommandLineParser n) (c : CompositeTransform n),
      parser.output.GetNumberOfValues > 0 →
      ¬ (parser.output.GetNumberOfParameters 0 > 1 ∧
          env.convertUnsigned (parser.output.GetParameter 0 1) ≠ 0) →
      ((writeOutput env parser 1 referenceImage c vectorOutputs).status = .EXIT_FAILURE ∧
        (writeOutput env parser 1 referenceImage c vectorOutputs).written = []) ∧
      ((writeOutput env parser 2 referenceImage c tensorOutputs).status = .EXIT_FAILURE ∧
        (writeOutput env parser 2 referenceImage c tensorOutputs).written = [])) := by
  have h1 : ∀ f, writeWarpedImage 1 referenceImage vectorOutputs f
      = { status := .EXIT_FAILURE, outputImages := vectorOutputs, written := [] } := by
    intro f
    simp [writeWarpedImage, hV]
  have h2 : ∀ f, writeWarpedImage 2 referenceImage tensorOutputs f
      = { status := .EXIT_FAILURE, outputImages := tensorOutputs, written := [] } := by
    intro f
    simp [writeWarpedImage, hT]
  refine ⟨by simp [h1], by simp [h2], ?_⟩
  intro env parser c hgiven hwarp
  simp only [writeOutput, hgiven, hwarp, if_true, if_false, h1, h2]
  simp

/-- C9 at a concrete input: two resampled images for 3-D vector input and five for tensor
input. -/
theorem writeWarpedImage_wrong_count_witness :
    ([1, 2].map constantScalarImage).length ≠ 3 ∧
    ([1, 2, 3, 4, 5].map constantScalarImage).length ≠ 6 ∧
    (writeWarpedImage 1 (exampleReferenceImage identityDirection3)
        ([1, 2].map constantScalarImage) "warped.nii").status = .EXIT_FAILURE ∧
    (writeWarpedImage 1 (exampleReferenceImage identityDirection3)
        ([1, 2].map constantScalarImage) "warped.nii").written = [] ∧
    (writeWarpedImage 2 (exampleReferenceImage identityDirection3)
        ([1, 2, 3, 4, 5].map constantScalarImage) "warped.nii").status = .EXIT_FAILURE ∧
    (writeWarpedImage 2 (exampleReferenceImage identityDirection3)
        ([1, 2, 3, 4, 5].map constantScalarImage) "warped.nii").written = [] :=
  have h := writeWarpedImage_wrong_count (exampleReferenceImage identityDirection3)
    ([1, 2].map constantScalarImage) ([1, 2, 3, 4, 5].map constantScalarImage) "warped.nii"
    (by decide) (by decide)
  ⟨by decide, by decide, h.1.1, h.1.2, h.2.1.1, h.2.1.2⟩

/-- C10 fails as stated: with `-n foo`, a name that is neither documented nor compared
against anywhere, the pipeline returns `EXIT_SUCCESS` and writes the warped image, resampled
with the interpolator the code falls back to. -/
theorem unrecognized_interpolation_counterexample :
    ConvertToLowerCase "foo" ∉ ["linear", "nearestneighbor", "multilabel", "gaussian", "bspline",
      "cosinewindowedsinc", "welchwindowedsinc", "hammingwindowedsinc", "lanczoswindowedsinc",
      "blackmanwindowedsinc"] ∧
    (antsApplyTransforms exampleCollaborators (exampleParser "foo") 0).status = .EXIT_SUCCESS ∧
    (antsApplyTransforms exampleCollaborators (exampleParser "foo") 0).written
      = [.scalarImage "warped.nii"
          (ResampleImageFilter (exampleCollaborators.evaluate .Linear) (constantScalarImage 5)
            (exampleReferenceImage identityDirection3) CompositeTransform.base 0)] :=
  ⟨by decide, by decide, rfl⟩

theorem interpolatorFor_linear {n : Nat} (whichInterpolator : String)
    (hname : whichInterpolator ∉ ["nearestneighbor", "bspline", "gaussian", "multilabel",
      "cosinewindowedsinc", "hammingwindowedsinc", "lanczoswindowedsinc",
      "blackmanwindowedsinc"]) :
    interpolatorFor whichInterpolator (none : Option (Interpolator n)) = .Linear := by
  simp only [List.mem_cons, List.mem_singleton, List.not_mem_nil, or_false, not_or] at hname
  simp [interpolatorFor, hname]

theorem selectInterpolator_unrecognized {n : Nat} (env : Collaborators n)
    (parser : CommandLineParser n) (inputImages : List (Image n ℚ))
    (hgiven : parser.interpolation.GetNumberOfValues > 0)
    (hname : ConvertToLowerCase (parser.interpolation.GetValue 0) ∉
      ["nearestneighbor", "bspline", "gaussian", "multilabel", "cosinewindowedsinc",
        "hammingwindowedsinc", "lanczoswindowedsinc", "blackmanwindowedsinc"]) :
    selectInterpolator env parser inputImages
      = .ok (ConvertToLowerCase (parser.interpolation.GetValue 0), none) := by
  simp only [List.mem_cons, List.mem_singleton, List.not_mem_nil, or_false, not_or] at hname
  simp [selectInterpolator, hgiven, hname]

theorem selectInterpolator_linear {n : Nat} (env : Collaborators n)
    (parser : CommandLineParser n) (inputImages : List (Image n ℚ)) :
    selectInterpolator env { parser with interpolation := CommandLineOption.single "linear" [] }
      inputImages = .ok ("linear", none) := by
  have h : ConvertToLowerCase "linear" = "linear" := by decide
  simp [selectInterpolator, CommandLineOption.single, h]

theorem not_compared_of_unrecognized (name : String)
    (hname : name ∉ ["linear", "nearestneighbor", "multilabel", "gaussian", "bspline",
      "cosinewindowedsinc", "welchwindowedsinc", "hammingwindowedsinc", "lanczoswindowedsinc",
      "blackmanwindowedsinc"]) :
    name ∉ ["nearestneighbor", "bspline", "gaussian", "multilabel", "cosinewindowedsinc",
      "hammingwindowedsinc", "lanczoswindowedsinc", "blackmanwindowedsinc"] := by
  simp only [List.mem_cons, List.mem_singleton, List.not_mem_nil, or_false, not_or] at hname ⊢
  tauto

/-- C10, amended: an interpolation option value that, in lower case, is neither one of the
documented kernel names (linear, nearestneighbor, multilabel, gaussian, bspline and the
cosine, welch, hamming and lanczos windowed sincs) nor blackmanwindowedsinc is not an error;
the resampler is given the linear interpolator for every image and the run is the run of the
same command line with `-n linear`. -/
theorem unrecognized_interpolation_is_linear {n : Nat} (env : Collaborators n)
    (parser : CommandLineParser n) (inputImageType : Nat)
    (hgiven : parser.interpolation.GetNumberOfValues > 0)
    (hname : ConvertToLowerCase (parser.interpolation.GetValue 0) ∉
      ["linear", "nearestneighbor", "multilabel", "gaussian", "bspline", "cosinewindowedsinc",
        "welchwindowedsinc", "hammingwindowedsinc", "lanczoswindowedsinc",
        "blackmanwindowedsinc"]) :
    (∀ inputImages, ∃ whichInterpolator,
      selectInterpolator env parser inputImages = .ok (whichInterpolator, none) ∧
      interpolatorFor whichInterpolator (none : Option (Interpolator n)) = .Linear) ∧
    antsApplyTransforms env parser inputImageType
      = antsApplyTransforms env
          { parser with interpolation := CommandLineOption.single "linear" [] } inputImageType := by
  have hcompared := not_compared_of_unrecognized _ hname
  refine ⟨fun inputImages =>
    ⟨_, selectInterpolator_unrecognized env parser inputImages hgiven hcompared,
      interpolatorFor_linear _ hcompared⟩, ?_⟩
  have e1 : readInputs env { parser with interpolation := CommandLineOption.single "linear" [] }
      inputImageType = readInputs env parser inputImageType := rfl
  have e2 : readReference env { parser with interpolation := CommandLineOption.single "linear" [] }
      = readReference env parser := rfl
  have e3 : buildTransform { parser with interpolation := CommandLineOption.single "linear" [] }
      = buildTransform parser := rfl
  have e4 : defaultPixelValue env
      { parser with interpolation := CommandLineOption.single "linear" [] }
      = defaultPixelValue env parser := rfl
  have e5 : writeOutput env { parser with interpolation := CommandLineOption.single "linear" [] }
      = writeOutput env parser := rfl
  have e6 : ∀ (ref : Image n Unit) (c : CompositeTransform n) (d : ℚ) (imgs : List (Image n ℚ)),
      resampleAll env ref c (ConvertToLowerCase (parser.interpolation.GetValue 0)) none d imgs
        = resampleAll env ref c "linear" none d imgs := by
    intro ref c d imgs
    have hlin : interpolatorFor "linear" (none : Option (Interpolator n)) = .Linear :=
      interpolatorFor_linear _ (by decide)
    simp only [resampleAll, interpolatorFor_linear _ hcompared, hlin]
  simp only [antsApplyTransforms, e1, e2, e3, e4, e5, selectInterpolator_linear,
    selectInterpolator_unrecognized env parser _ hgiven hcompared, bind, Except.bind, e6]

/-- C10 (amended) at a concrete input: `-n foo` runs as `-n linear`. -/
theorem unrecognized_interpolation_is_linear_witness :
    (exampleParser "foo").interpolation.GetNumberOfValues > 0 ∧
    ConvertToLowerCase ((exampleParser "foo").interpolation.GetValue 0) ∉
      ["linear", "nearestneighbor", "multilabel", "gaussian", "bspline", "cosinewindowedsinc",
        "welchwindowedsinc", "hammingwindowedsinc", "lanczoswindowedsinc",
        "blackmanwindowedsinc"] ∧
    antsApplyTransforms exampleCollaborators (exampleParser "foo") 0
      = antsApplyTransforms exampleCollaborators
          { exampleParser "foo" with interpolation := CommandLineOption.single "linear" [] } 0 :=
  ⟨by decide, by decide,
    (unrecognized_interpolation_is_linear exampleCollaborators (exampleParser "foo") 0
      (by decide) (by decide)).2⟩

theorem antsApplyTransforms_eq_prepare {n : Nat} (env : Collaborators n)
    (parser : CommandLineParser n) (inputImageType : Nat) :
    antsApplyTransforms env parser inputImageType
      = match prepare env parser inputImageType with
        | .ok p => resampleAndWrite env parser inputImageType p
        | .error run => run := by
  simp only [antsApplyTransforms, prepare, resampleAndWrite, bind, Except.bind, pure, Except.pure]
  rcases readInputs env parser inputImageType with r | inputs
  · rfl
  rcases readReference env parser with r | referenceImage
  · rfl
  dsimp only
  rcases correctAndSplit inputImageType inputs referenceImage with r | inputImages
  · rfl
  rcases buildTransform parser with r | c
  · rfl
  dsimp only
  rcases selectInterpolator env parser inputImages with r | ⟨w, i⟩
  · rfl
  · rfl

/-! ## Interpolation kernels: selection and parameters -/

/-- C11 fails on the code for the Welch window: with `-n WelchWindowedSinc` the name is
lower-cased to `welchwindowedsinc`, the `interpolator` pointer stays null and the dispatch of
lines 424–447, which has no Welch case, gives the resample filter the linear interpolator;
the Cosine, Hamming and Lanczos names get the radius-3 windowed sinc with their own window. -/
theorem welch_windowed_sinc_gets_linear :
    selectInterpolator exampleCollaborators (exampleParser "WelchWindowedSinc")
        [constantScalarImage 5] = .ok ("welchwindowedsinc", none) ∧
    interpolatorFor "welchwindowedsinc" (none : Option (Interpolator 3)) = .Linear ∧
    (∀ (env : Collaborators 3) (referenceImage : Image 3 Unit) (c : CompositeTransform 3)
        (d : ℚ) (inputImages : List (Image 3 ℚ)),
      resampleAll env referenceImage c "welchwindowedsinc" none d inputImages
        = inputImages.map fun inputImage =>
            ResampleImageFilter (env.evaluate .Linear) inputImage referenceImage c d) ∧
    (antsApplyTransforms exampleCollaborators (exampleParser "WelchWindowedSinc") 0).status
      = .EXIT_SUCCESS ∧
    interpolatorFor (ConvertToLowerCase "CosineWindowedSinc") (none : Option (Interpolator 3))
      = .WindowedSinc 3 .Cosine ∧
    interpolatorFor (ConvertToLowerCase "HammingWindowedSinc") (none : Option (Interpolator 3))
      = .WindowedSinc 3 .Hamming ∧
    interpolatorFor (ConvertToLowerCase "LanczosWindowedSinc") (none : Option (Interpolator 3))
      = .WindowedSinc 3 .Lanczos :=
  ⟨rfl, rfl, fun _ _ _ _ _ => rfl, by decide, rfl, rfl, rfl⟩

theorem selectInterpolator_multilabel_alpha {n : Nat} (env : Collaborators n)
    (parser : CommandLineParser n) (inputImages : List (Image n ℚ)) (whichInterpolator : String)
    (sigma : Vec n) (alpha : ℚ)
    (h : selectInterpolator env parser inputImages
      = .ok (whichInterpolator, some (.MultiLabel sigma alpha))) : alpha = 4 := by
  unfold selectInterpolator at h
  simp only at h
  repeat' split at h
  all_goals simp at h
  all_goals exact h.2.2.symm

/-- C12 fails on the code: with `-n MultiLabel[1,2]` the multilabel branch (lines 363–392)
reads the sigma parameter only and passes `alpha = 4.0`, not the supplied `2`; whatever the
command line, a multi-label interpolator is given `alpha = 4.0`. -/
theorem multilabel_alpha_is_always_four :
    (exampleParserWith "MultiLabel" ["1", "2"]).interpolation.GetNumberOfParameters 0 = 2 ∧
    decimalCollaborators.convertReal
      ((exampleParserWith "MultiLabel" ["1", "2"]).interpolation.GetParameter 0 1) = 2 ∧
    selectInterpolator decimalCollaborators (exampleParserWith "MultiLabel" ["1", "2"])
        [constantScalarImage 5] = .ok ("multilabel", some (.MultiLabel (fun _ => 1) 4)) ∧
    (∀ (n : Nat) (env : Collaborators n) (parser : CommandLineParser n)
        (inputImages : List (Image n ℚ)) (whichInterpolator : String) (sigma : Vec n) (alpha : ℚ),
      selectInterpolator env parser inputImages
          = .ok (whichInterpolator, some (.MultiLabel sigma alpha)) → alpha = 4) := by
  refine ⟨rfl, by decide, ?_, fun n env parser inputImages w sigma alpha h =>
    selectInterpolator_multilabel_alpha env parser inputImages w sigma alpha h⟩
  have h1 : ((decimalValue "1" : Nat) : ℚ) = 1 := by decide
  have h2 : ConvertToLowerCase "MultiLabel" = "multilabel" := by decide
  simp [selectInterpolator, kernelSigma, exampleParserWith, exampleParser,
    CommandLineOption.single, decimalCollaborators, h1, h2]

theorem selectInterpolator_gaussian_alpha {n : Nat} (env : Collaborators n)
    (parser : CommandLineParser n) (inputImages : List (Image n ℚ)) (whichInterpolator : String)
    (sigma : Vec n) (alpha : ℚ)
    (h : selectInterpolator env parser inputImages
      = .ok (whichInterpolator, some (.Gaussian sigma alpha))) :
    alpha = if parser.interpolation.GetNumberOfParameters 0 > 1 then
        env.convertReal (parser.interpolation.GetParameter 1 0)
      else 1 := by
  unfold selectInterpolator at h
  simp only at h
  repeat' split at h
  all_goals simp at h
  all_goals obtain ⟨-, -, rfl⟩ := h
  all_goals first
    | rw [if_pos (by assumption)]
    | rw [if_neg (by omega)]

theorem kernelSigma_supplied {n : Nat} (env : Collaborators n)
    (interpolationOption : CommandLineOption) (first : Image n ℚ) (rest : List (Image n ℚ))
    (hgiven : interpolationOption.GetNumberOfParameters 0 > 0)
    (hlength : (env.convertRealVector (interpolationOption.GetParameter 0 0)).length = n) :
    kernelSigma env interpolationOption (first :: rest)
      = some fun (d : Fin n) =>
          (env.convertRealVector (interpolationOption.GetParameter 0 0)).getD d.val 0 := by
  simp [kernelSigma, hgiven, hlength]

/-- C16 fails on the code for the alpha parameter: with `-n Gaussian[2,3]` the gaussian branch
(lines 329–362) converts `GetParameter( 1 )`, parameter 0 of a second option value that the
command line does not have, and not the second parameter `3` of the value given. The sigma
part holds: without parameters sigma is the spacing of `inputImages[0]` and alpha is 1.0, and
a supplied list of `Dimension` values is taken axis by axis. -/
theorem gaussian_alpha_is_not_second_parameter :
    (exampleParserWith "Gaussian" ["2", "3"]).interpolation.GetNumberOfParameters 0 = 2 ∧
    decimalCollaborators.convertReal
      ((exampleParserWith "Gaussian" ["2", "3"]).interpolation.GetParameter 0 1) = 3 ∧
    selectInterpolator decimalCollaborators (exampleParserWith "Gaussian" ["2", "3"])
        [constantScalarImage 5] = .ok ("gaussian", some (.Gaussian (fun _ => 2) 0)) ∧
    selectInterpolator decimalCollaborators (exampleParserWith "Gaussian" [])
        [constantScalarImage 5]
      = .ok ("gaussian", some (.Gaussian (constantScalarImage 5).info.spacing 1)) ∧
    (∀ (n : Nat) (env : Collaborators n) (parser : CommandLineParser n)
        (inputImages : List (Image n ℚ)) (whichInterpolator : String) (sigma : Vec n) (alpha : ℚ),
      selectInterpolator env parser inputImages
          = .ok (whichInterpolator, some (.Gaussian sigma alpha)) →
        alpha = if parser.interpolation.GetNumberOfParameters 0 > 1 then
            env.convertReal (parser.interpolation.GetParameter 1 0)
          else 1) ∧
    (∀ (n : Nat) (env : Collaborators n) (interpolationOption : CommandLineOption)
        (first : Image n ℚ) (rest : List (Image n ℚ)),
      interpolationOption.GetNumberOfParameters 0 > 0 →
      (env.convertRealVector (interpolationOption.GetParameter 0 0)).length = n →
      kernelSigma env interpolationOption (first :: rest)
        = some fun (d : Fin n) =>
            (env.convertRealVector (interpolationOption.GetParameter 0 0)).getD d.val 0) := by
  refine ⟨rfl, by decide, ?_, ?_, fun n env parser inputImages w sigma alpha h =>
    selectInterpolator_gaussian_alpha env parser inputImages w sigma alpha h,
    fun n env o first rest h1 h2 => kernelSigma_supplied env o first rest h1 h2⟩
  · have h1 : ((decimalValue "2" : Nat) : ℚ) = 2 := by decide
    have h0 : ((decimalValue "" : Nat) : ℚ) = 0 := by decide
    have h2 : ConvertToLowerCase "Gaussian" = "gaussian" := by decide
    simp [selectInterpolator, kernelSigma, exampleParserWith, exampleParser,
      CommandLineOption.single, decimalCollaborators, h1, h0, h2]
  · have h2 : ConvertToLowerCase "Gaussian" = "gaussian" := by decide
    simp [selectInterpolator, kernelSigma, exampleParserWith, exampleParser,
      CommandLineOption.single, decimalCollaborators, h2]

theorem correctedMatrix_symmetric (D : Mat 3) (tensor : Tensor) (i j : Fin 3) :
    matMul (matMul D (tensorToMatrix tensor)) (GetTranspose D) i j
      = matMul (matMul D (tensorToMatrix tensor)) (GetTranspose D) j i := by
  simp only [matMul, GetTranspose, Fin.sum_univ_three, tensorToMatrix]
  simp [Matrix.vecHead, Matrix.vecTail]
  ring

theorem tensorToMatrix_matrixToTensor (S : Mat 3) (hS : ∀ i j, S i j = S j i) :
    tensorToMatrix (matrixToTensor S) = S := by
  funext i j
  fin_cases i <;> fin_cases j <;>
    simp [tensorToMatrix, matrixToTensor, Matrix.vecHead, Matrix.vecTail, vec6_val_five]
  · exact hS 0 1
  · exact hS 0 2
  · exact hS 1 2

/-- C17: for every 3x3 matrix `D` and every tensor voxel, the matrix
`S = D · T · transpose(D)` that `CorrectImageTensorDirection` computes from the symmetric
expansion `T` is symmetric, so expanding the six stored values `(S00,S01,S02,S11,S12,S22)`
again yields `S`. -/
theorem correctTensor_repacking_loses_nothing (D : Mat 3) (tensor : Tensor) :
    let S : Mat 3 := matMul (matMul D (tensorToMatrix tensor)) (GetTranspose D)
    S = (Matrix.of D * Matrix.of (tensorToMatrix tensor) * (Matrix.of D).transpose) ∧
    (∀ i j, S i j = S j i) ∧
    correctTensor D tensor = ![S 0 0, S 0 1, S 0 2, S 1 1, S 1 2, S 2 2] ∧
    tensorToMatrix (correctTensor D tensor) = S := by
  intro S
  exact ⟨rfl, correctedMatrix_symmetric D tensor, rfl,
    tensorToMatrix_matrixToTensor S (correctedMatrix_symmetric D tensor)⟩

/-! ## Missing input image -/

/-- C19 fails on the code: with `-r fixed.nii -o warped.nii` and no input image, the check of
lines 174–182 rejects only the bracketed form `-o [name,0]`; the plain form passes, nothing is
resampled and the write of line 563 reads `outputImages[0]` of an empty list. With
`-n Gaussian` in addition, line 334 reads `inputImages[0]` of an empty list. -/
theorem missing_input_image_is_read :
    noInputParser.input.GetNumberOfValues = 0 ∧
    noInputParser.output.GetNumberOfValues > 0 ∧
    (∃ p, prepare exampleCollaborators noInputParser 0 = .ok p ∧ p.inputImages = []) ∧
    (antsApplyTransforms exampleCollaborators noInputParser 0).status = .aborted ∧
    (antsApplyTransforms exampleCollaborators noInputParser 0).status ≠ .EXIT_FAILURE ∧
    (∃ inputs, readInputs exampleCollaborators
        { noInputParser with interpolation := .single "Gaussian" [] } 0 = .ok inputs ∧
      inputs.inputImages = []) ∧
    selectInterpolator exampleCollaborators
        { noInputParser with interpolation := .single "Gaussian" [] } []
      = .error (Run.early .aborted) ∧
    (antsApplyTransforms decimalCollaborators
        { noInputParser with output := .single "" ["warped.nii", "0"] } 0).status
      = .EXIT_FAILURE :=
  ⟨rfl, by decide, ⟨_, rfl, rfl⟩, by decide, by decide, ⟨_, rfl, rfl⟩, rfl, by decide⟩

/-! ## The entry point -/

/-- C13 fails on the code: with `-i moving.nii -r fixed.nii -o warped.nii -t [doubling,1]`,
a transform that offers no inverse, the 3-D pipeline returns `EXIT_FAILURE` (null composite
transform, lines 259–262) and the entry point, which does not use the returned value
(line 890), returns `EXIT_SUCCESS`; no failure of a called pipeline is ever returned. -/
theorem pipeline_failure_is_not_returned :
    ((antsApplyTransformsEntryPoint readableCollaborators
        (parsersWithTransforms fun _ => [{ transform := doubling, useInverse := true }])
        (exampleCommandLine 3 (some (.single "0" [])))).call.map fun c =>
          (c.Dimension, c.inputImageType, c.run.status)) = some (3, 0, .EXIT_FAILURE) ∧
    (antsApplyTransformsEntryPoint readableCollaborators
        (parsersWithTransforms fun _ => [{ transform := doubling, useInverse := true }])
        (exampleCommandLine 3 (some (.single "0" [])))).status = .EXIT_SUCCESS ∧
    (∀ (envs : (n : Nat) → Collaborators n) (parsers : (n : Nat) → CommandLineParser n)
        (Dimension inputImageType : Nat),
      (antsApplyTransforms (envs Dimension) (parsers Dimension) inputImageType).status
          = .EXIT_FAILURE →
        (callPipeline envs parsers Dimension inputImageType).status = .EXIT_SUCCESS) := by
  refine ⟨by decide, by decide, ?_⟩
  intro envs parsers Dimension inputImageType h
  simp [callPipeline, h]

theorem callPipeline_messages (envs : (n : Nat) → Collaborators n)
    (parsers : (n : Nat) → CommandLineParser n) (Dimension inputImageType : Nat) :
    (callPipeline envs parsers Dimension inputImageType).messages = [] := rfl

/-- C15: once the switch on the dimension is reached (arguments given, no help requested,
reference image option given, an `imageIO` created), a resolved dimension (the header's,
overridden by the dimensionality option when given) other than 2, 3 and 4 makes the entry
point return `EXIT_FAILURE` with "Unsupported dimension" and without calling any
per-dimension pipeline; for 2, 3 and 4 that branch is not taken. -/
theorem unsupported_dimension_is_fatal (envs : (n : Nat) → Collaborators n)
    (parsers : (n : Nat) → CommandLineParser n) (commandLine : CommandLine)
    (imageDimension : Nat)
    (hargs : 2 ≤ commandLine.argc) (hhelp : commandLine.help = false)
    (hshort : commandLine.shortHelp = false)
    (href : commandLine.referenceImage.GetNumberOfValues > 0)
    (hio : commandLine.imageDimension = some imageDimension) :
    let dimension :=
      if commandLine.dimensionality.GetNumberOfValues > 0 then
        commandLine.convertUnsigned (commandLine.dimensionality.GetValue 0)
      else imageDimension
    (dimension ∉ [2, 3, 4] →
      (antsApplyTransformsEntryPoint envs parsers commandLine).status = .EXIT_FAILURE ∧
      (antsApplyTransformsEntryPoint envs parsers commandLine).messages
        = ["Unsupported dimension"] ∧
      (antsApplyTransformsEntryPoint envs parsers commandLine).call.isNone = true) ∧
    (dimension ∈ [2, 3, 4] →
      "Unsupported dimension" ∉ (antsApplyTransformsEntryPoint envs parsers commandLine).messages) := by
  intro dimension
  have hnot : ¬ (commandLine.argc < 2 ∨ commandLine.help = true) := by
    simp [hhelp]; omega
  have hentry : antsApplyTransformsEntryPoint envs parsers commandLine
      = match dimension with
        | 2 =>
          match commandLine.inputImageType with
          | some inputImageTypeOption =>
            if inputImageTypeOption.GetValue 0 = "scalar" ∨ inputImageTypeOption.GetValue 0 = "0" then
              callPipeline envs parsers 2 0
            else if inputImageTypeOption.GetValue 0 = "vector" ∨ inputImageTypeOption.GetValue 0 = "1" then
              callPipeline envs parsers 2 1
            else if inputImageTypeOption.GetValue 0 = "tensor" ∨ inputImageTypeOption.GetValue 0 = "2" then
              { status := .EXIT_SUCCESS
                messages := ["antsApplyTransforms is not implemented for 2-D tensor images."]
                call := none }
            else
              { status := .EXIT_FAILURE
                messages := ["Unrecognized input image type (cf --input-image-type option)."]
                call := none }
          | none => callPipeline envs parsers 2 0
        | 3 =>
          match commandLine.inputImageType with
          | some inputImageTypeOption =>
            if inputImageTypeOption.GetValue 0 = "scalar" ∨ inputImageTypeOption.GetValue 0 = "0" then
              callPipeline envs parsers 3 0
            else if inputImageTypeOption.GetValue 0 = "vector" ∨ inputImageTypeOption.GetValue 0 = "1" then
              callPipeline envs parsers 3 1
            else if inputImageTypeOption.GetValue 0 = "tensor" ∨ inputImageTypeOption.GetValue 0 = "2" then
              callPipeline envs parsers 3 2
            else
              { status := .EXIT_FAILURE
                messages := ["Unrecognized input image type (cf --input-image-type option)."]
                call := none }
          | none => callPipeline envs parsers 3 0
        | 4 =>
          match commandLine.inputImageType with
          | some inputImageTypeOption =>
            if inputImageTypeOption.GetValue 0 = "scalar" ∨ inputImageTypeOption.GetValue 0 = "0" then
              callPipeline envs parsers 4 0
            else if inputImageTypeOption.GetValue 0 = "vector" ∨ inputImageTypeOption.GetValue 0 = "1" then
              callPipeline envs parsers 4 1
            else if inputImageTypeOption.GetValue 0 = "tensor" ∨ inputImageTypeOption.GetValue 0 = "2" then
              { status := .EXIT_SUCCESS
                messages := ["antsApplyTransforms is not implemented for 4-D tensor images."]
                call := none }
            else
              { status := .EXIT_FAILURE
                messages := ["Unrecognized input image type (cf --input-image-type option)."]
                call := none }
          | none => callPipeline envs parsers 3 0
        | _ => { status := .EXIT_FAILURE, messages := ["Unsupported dimension"], call := none } := by
    unfold antsApplyTransformsEntryPoint
    rw [if_neg hnot, if_neg (by simp [hshort]), if_pos href, hio]
  rw [hentry]
  clear_value dimension
  constructor
  · intro hd
    have h2 : dimension ≠ 2 := fun h => hd (by simp [h])
    have h3 : dimension ≠ 3 := fun h => hd (by simp [h])
    have h4 : dimension ≠ 4 := fun h => hd (by simp [h])
    split
    · exact absurd rfl h2
    · exact absurd rfl h3
    · exact absurd rfl h4
    · exact ⟨rfl, rfl, rfl⟩
  · intro hd
    simp only [List.mem_cons, List.mem_singleton, List.not_mem_nil, or_false] at hd
    rcases hd with h | h | h <;> rw [h] <;> dsimp only <;>
      (repeat' split) <;> simp [callPipeline_messages]

/-- C15 at concrete inputs: a 3-D reference file with `-d 7` is refused, with no pipeline
called; the same command line without `-d` does not print "Unsupported dimension". -/
theorem unsupported_dimension_is_fatal_witness :
    (antsApplyTransformsEntryPoint readableCollaborators (parsersWithTransforms fun _ => [])
        { exampleCommandLine 3 (some (.single "0" [])) with
          dimensionality := .single "7" [] }).status = .EXIT_FAILURE ∧
    (antsApplyTransformsEntryPoint readableCollaborators (parsersWithTransforms fun _ => [])
        { exampleCommandLine 3 (some (.single "0" [])) with
          dimensionality := .single "7" [] }).messages = ["Unsupported dimension"] ∧
    (antsApplyTransformsEntryPoint readableCollaborators (parsersWithTransforms fun _ => [])
        { exampleCommandLine 3 (some (.single "0" [])) with
          dimensionality := .single "7" [] }).call.isNone = true ∧
    "Unsupported dimension" ∉
      (antsApplyTransformsEntryPoint readableCollaborators (parsersWithTransforms fun _ => [])
        (exampleCommandLine 3 (some (.single "0" [])))).messages :=
  have h7 := (unsupported_dimension_is_fatal readableCollaborators
    (parsersWithTransforms fun _ => [])
    { exampleCommandLine 3 (some (.single "0" [])) with dimensionality := .single "7" [] }
    3 (by decide) rfl rfl (by decide) rfl).1 (by decide)
  have h3 := (unsupported_dimension_is_fatal readableCollaborators
    (parsersWithTransforms fun _ => []) (exampleCommandLine 3 (some (.single "0" [])))
    3 (by decide) rfl rfl (by decide) rfl).2 (by decide)
  ⟨h7.1, h7.2.1, h7.2.2, h3⟩

/-- C18: once the switch on the dimension is reached, for every resolved dimension `d` in
{2, 3, 4} and scalar input kind, that is an `input-image-type` option object whose value is
"scalar" or "0" (the value given on the command line or, when the option is absent from it,
the default "0" the option is registered with in lines 596–603), the entry point calls the
per-dimension pipeline instantiated with `Dimension = d`, on scalar input. -/
theorem dimension_dispatch_is_faithful (envs : (n : Nat) → Collaborators n)
    (parsers : (n : Nat) → CommandLineParser n) (commandLine : CommandLine)
    (imageDimension d : Nat) (inputImageTypeOption : CommandLineOption)
    (hargs : 2 ≤ commandLine.argc) (hhelp : commandLine.help = false)
    (hshort : commandLine.shortHelp = false)
    (href : commandLine.referenceImage.GetNumberOfValues > 0)
    (hio : commandLine.imageDimension = some imageDimension)
    (hresolved : (if commandLine.dimensionality.GetNumberOfValues > 0 then
        commandLine.convertUnsigned (commandLine.dimensionality.GetValue 0)
      else imageDimension) = d)
    (hd : d ∈ [2, 3, 4])
    (hoption : commandLine.inputImageType = some inputImageTypeOption)
    (hscalar : inputImageTypeOption.GetValue 0 = "scalar" ∨
      inputImageTypeOption.GetValue 0 = "0") :
    antsApplyTransformsEntryPoint envs parsers commandLine = callPipeline envs parsers d 0 ∧
    (antsApplyTransformsEntryPoint envs parsers commandLine).call
      = some { Dimension := d, inputImageType := 0,
               run := antsApplyTransforms (envs d) (parsers d) 0 } := by
  have hnot : ¬ (commandLine.argc < 2 ∨ commandLine.help = true) := by
    simp [hhelp]; omega
  have hentry : antsApplyTransformsEntryPoint envs parsers commandLine
      = callPipeline envs parsers d 0 := by
    unfold antsApplyTransformsEntryPoint
    rw [if_neg hnot, if_neg (by simp [hshort]), if_pos href, hio]
    simp only [hresolved, hoption]
    simp only [List.mem_cons, List.mem_singleton, List.not_mem_nil, or_false] at hd
    rcases hd with rfl | rfl | rfl <;> simp only [if_pos hscalar]
  exact ⟨hentry, by rw [hentry]; rfl⟩

/-- C18 at concrete inputs: a 4-D reference image with the option absent from the command
line (the registered default "0") and with `-e scalar` both run the 4-D pipeline. -/
theorem dimension_dispatch_is_faithful_witness :
    ((antsApplyTransformsEntryPoint readableCollaborators (parsersWithTransforms fun _ => [])
        (exampleCommandLine 4 (some registeredInputImageType))).call.map fun c =>
          (c.Dimension, c.inputImageType)) = some (4, 0) ∧
    ((antsApplyTransformsEntryPoint readableCollaborators (parsersWithTransforms fun _ => [])
        (exampleCommandLine 4 (some (.single "scalar" [])))).call.map fun c =>
          (c.Dimension, c.inputImageType)) = some (4, 0) := by
  have h0 := (dimension_dispatch_is_faithful readableCollaborators
    (parsersWithTransforms fun _ => []) (exampleCommandLine 4 (some registeredInputImageType))
    4 4 registeredInputImageType (by decide) rfl rfl (by decide) rfl rfl (by decide) rfl
    (Or.inr rfl)).2
  have h1 := (dimension_dispatch_is_faithful readableCollaborators
    (parsersWithTransforms fun _ => []) (exampleCommandLine 4 (some (.single "scalar" [])))
    4 4 (.single "scalar" []) (by decide) rfl rfl (by decide) rfl rfl (by decide) rfl
    (Or.inl rfl)).2
  exact ⟨by rw [h0]; rfl, by rw [h1]; rfl⟩

/-- The else branches of the switch, taken when `GetOption( "input-image-type" )` gives no
option object: those of cases 2 and 3 (lines 878, 908) call the pipeline of their dimension,
that of case 4 (line 938) calls `antsApplyTransforms<3>`. -/
theorem null_option_branch_of_case_four :
    ((antsApplyTransformsEntryPoint readableCollaborators (parsersWithTransforms fun _ => [])
        (exampleCommandLine 4 none)).call.map fun c => (c.Dimension, c.inputImageType))
      = some (3, 0) ∧
    ((antsApplyTransformsEntryPoint readableCollaborators (parsersWithTransforms fun _ => [])
        (exampleCommandLine 3 none)).call.map fun c => (c.Dimension, c.inputImageType))
      = some (3, 0) ∧
    ((antsApplyTransformsEntryPoint readableCollaborators (parsersWithTransforms fun _ => [])
        (exampleCommandLine 2 none)).call.map fun c => (c.Dimension, c.inputImageType))
      = some (2, 0) :=
  ⟨by decide, by decide, by decide⟩

/-! ## Where fatal errors are detected -/

theorem readInputs_error {n : Nat} (env : Collaborators n) (parser : CommandLineParser n)
    (t : Nat) (r : Run n) (h : readInputs env parser t = .error r) :
    r.outputImages = [] ∧ r.written = [] := by
  unfold readInputs at h
  repeat' split at h
  all_goals cases h
  all_goals exact ⟨rfl, rfl⟩

theorem readInputs_ok {n : Nat} (env : Collaborators n) (parser : CommandLineParser n)
    (t : Nat) (inputs : Inputs n) (h : readInputs env parser t = .ok inputs) (ht : t ≠ 0) :
    inputs.inputImages = [] := by
  unfold readInputs at h
  repeat' split at h
  all_goals cases h
  all_goals first
    | rfl
    | omega

theorem readReference_error {n : Nat} (env : Collaborators n) (parser : CommandLineParser n)
    (r : Run n) (h : readReference env parser = .error r) :
    r.outputImages = [] ∧ r.written = [] := by
  unfold readReference at h
  repeat' split at h
  all_goals cases h
  all_goals exact ⟨rfl, rfl⟩

theorem correctAndSplitTensor_length (n : Nat) (tensorImage : Image n Tensor)
    (referenceImage : Image n Unit) (components : List (Image n ℚ))
    (h : correctAndSplitTensor n tensorImage referenceImage = some components) :
    components.length = 6 := by
  unfold correctAndSplitTensor at h
  split at h
  · injection h with h
    subst h
    simp [splitComponents]
  · cases h

theorem correctAndSplit_error {n : Nat} (t : Nat) (inputs : Inputs n)
    (referenceImage : Image n Unit) (r : Run n)
    (h : correctAndSplit t inputs referenceImage = .error r) :
    r.outputImages = [] ∧ r.written = [] := by
  unfold correctAndSplit at h
  repeat' split at h
  all_goals cases h
  all_goals exact ⟨rfl, rfl⟩

theorem correctAndSplit_ok {n : Nat} (t : Nat) (inputs : Inputs n)
    (referenceImage : Image n Unit) (inputImages : List (Image n ℚ))
    (h : correctAndSplit t inputs referenceImage = .ok inputImages)
    (hempty : inputs.inputImages = []) :
    (t = 1 → inputImages.length = n) ∧ (t = 2 → inputImages.length = 6) := by
  unfold correctAndSplit at h
  split at h
  · rename_i h1
    split at h
    · injection h with h
      subst h
      refine ⟨fun _ => ?_, fun h2 => by omega⟩
      simp [hempty, splitComponents]
    · cases h
  · rename_i h1
    split at h
    · split at h
      · split at h
        · rename_i hc
          injection h with h
          subst h
          refine ⟨fun h1' => absurd h1' h1, fun _ => ?_⟩
          simp [hempty, correctAndSplitTensor_length _ _ _ _ hc]
        · cases h
      · cases h
    · exact ⟨fun h1' => absurd h1' h1, fun h2 => absurd h2 (by assumption)⟩

theorem buildTransform_error {n : Nat} (parser : CommandLineParser n) (r : Run n)
    (h : buildTransform parser = .error r) : r.outputImages = [] ∧ r.written = [] := by
  unfold buildTransform at h
  split at h
  · cases h
  · injection h with h
    subst h
    exact ⟨rfl, rfl⟩

theorem selectInterpolator_error {n : Nat} (env : Collaborators n)
    (parser : CommandLineParser n) (inputImages : List (Image n ℚ)) (r : Run n)
    (h : selectInterpolator env parser inputImages = .error r) :
    r.outputImages = [] ∧ r.written = [] := by
  unfold selectInterpolator at h
  simp only at h
  repeat' split at h
  all_goals cases h
  all_goals exact ⟨rfl, rfl⟩

theorem prepare_error {n : Nat} (env : Collaborators n) (parser : CommandLineParser n)
    (t : Nat) (r : Run n) (h : prepare env parser t = .error r) :
    r.outputImages = [] ∧ r.written = [] := by
  simp only [prepare, bind, Except.bind, pure, Except.pure] at h
  rcases h1 : readInputs env parser t with r1 | inputs <;> rw [h1] at h
  · cases h
    exact readInputs_error env parser t _ h1
  rcases h2 : readReference env parser with r2 | referenceImage <;> rw [h2] at h
  · cases h
    exact readReference_error env parser _ h2
  dsimp only at h
  rcases h3 : correctAndSplit t inputs referenceImage with r3 | inputImages <;> rw [h3] at h
  · cases h
    exact correctAndSplit_error t inputs referenceImage _ h3
  rcases h4 : buildTransform parser with r4 | c <;> rw [h4] at h
  · cases h
    exact buildTransform_error parser _ h4
  dsimp only at h
  rcases h5 : selectInterpolator env parser inputImages with r5 | w <;> rw [h5] at h
  · cases h
    exact selectInterpolator_error env parser inputImages _ h5
  · cases h

theorem prepare_ok_count {n : Nat} (env : Collaborators n) (parser : CommandLineParser n)
    (t : Nat) (p : Prepared n) (h : prepare env parser t = .ok p) :
    (t = 1 → p.inputImages.length = n) ∧ (t = 2 → p.inputImages.length = 6) := by
  by_cases ht : t = 0
  · exact ⟨fun h1 => by omega, fun h2 => by omega⟩
  simp only [prepare, bind, Except.bind, pure, Except.pure] at h
  rcases h1 : readInputs env parser t with r1 | inputs <;> rw [h1] at h
  · cases h
  rcases h2 : readReference env parser with r2 | referenceImage <;> rw [h2] at h
  · cases h
  dsimp only at h
  rcases h3 : correctAndSplit t inputs referenceImage with r3 | inputImages <;> rw [h3] at h
  · cases h
  rcases h4 : buildTransform parser with r4 | c <;> rw [h4] at h
  · cases h
  dsimp only at h
  rcases h5 : selectInterpolator env parser inputImages with r5 | w <;> rw [h5] at h
  · cases h
  · cases h
    exact correctAndSplit_ok t inputs referenceImage inputImages h3
      (readInputs_ok env parser t inputs h1 ht)

theorem resampleAll_length {n : Nat} (env : Collaborators n) (referenceImage : Image n Unit)
    (c : CompositeTransform n) (w : String) (i : Option (Interpolator n)) (d : ℚ)
    (inputImages : List (Image n ℚ)) :
    (resampleAll env referenceImage c w i d inputImages).length = inputImages.length := by
  simp [resampleAll]

theorem writeWarpedImage_failure {n : Nat} (t : Nat) (referenceImage : Image n Unit)
    (outputImages : List (Image n ℚ)) (fileName : String)
    (h : (writeWarpedImage t referenceImage outputImages fileName).status = .EXIT_FAILURE) :
    ((t = 1 ∧ outputImages.length ≠ n) ∨ (t = 2 ∧ outputImages.length ≠ 6)) ∧
    (writeWarpedImage t referenceImage outputImages fileName).outputImages = outputImages ∧
    (writeWarpedImage t referenceImage outputImages fileName).written = [] := by
  unfold writeWarpedImage at h ⊢
  repeat' split at h
  all_goals simp at h
  all_goals simp_all

theorem resampleAndWrite_failure {n : Nat} (env : Collaborators n)
    (parser : CommandLineParser n) (t : Nat) (p : Prepared n)
    (h : (resampleAndWrite env parser t p).status = .EXIT_FAILURE) :
    ((t = 1 ∧ p.inputImages.length ≠ n) ∨ (t = 2 ∧ p.inputImages.length ≠ 6)) ∧
    (resampleAndWrite env parser t p).outputImages
      = resampleAll env p.referenceImage p.compositeTransform p.whichInterpolator p.interpolator
          (defaultPixelValue env parser) p.inputImages ∧
    (resampleAndWrite env parser t p).written = [] := by
  unfold resampleAndWrite writeOutput at h ⊢
  simp only at h ⊢
  split at h
  · split at h
    · simp at h
    · rename_i h1 h2
      rw [if_pos h1, if_neg h2]
      have := writeWarpedImage_failure t _ _ _ h
      rw [resampleAll_length] at this
      exact this
  · simp at h

/-- C14: every invocation of the per-dimension pipeline that ends in a fatal error
(`EXIT_FAILURE`) has, at that point, resampled no output image and written none: the errors
of lines 171, 180, 211 and 261 return before the resampling loop, and the count checks of
lines 494–534 cannot fail in an invocation, which splits a vector image into exactly
`Dimension` and a tensor image into exactly 6 components. -/
theorem fatal_errors_before_any_output {n : Nat} (env : Collaborators n)
    (parser : CommandLineParser n) (inputImageType : Nat)
    (hfatal : (antsApplyTransforms env parser inputImageType).status = .EXIT_FAILURE) :
    (antsApplyTransforms env parser inputImageType).outputImages = [] ∧
    (antsApplyTransforms env parser inputImageType).written = [] ∧
    ∃ run, prepare env parser inputImageType = .error run ∧
      antsApplyTransforms env parser inputImageType = run := by
  rw [antsApplyTransforms_eq_prepare] at hfatal ⊢
  rcases hprep : prepare env parser inputImageType with r | q
  · exact ⟨(prepare_error env parser inputImageType r hprep).1,
      (prepare_error env parser inputImageType r hprep).2, r, rfl, rfl⟩
  · rw [hprep] at hfatal
    have hq := (resampleAndWrite_failure env parser inputImageType q hfatal).1
    have hc := prepare_ok_count env parser inputImageType q hprep
    rcases hq with ⟨h1, hne⟩ | ⟨h2, hne⟩
    · exact absurd (hc.1 h1) hne
    · exact absurd (hc.2 h2) hne

/-- C14 at a concrete input: `-t [doubling,1]`, a transform that offers no inverse, with 3-D
vector input fails at the transform stack, with nothing resampled and nothing written. -/
theorem fatal_errors_before_any_output_witness :
    (antsApplyTransforms exampleCollaborators noInverseParser 1).status = .EXIT_FAILURE ∧
    (antsApplyTransforms exampleCollaborators noInverseParser 1).outputImages = [] ∧
    (antsApplyTransforms exampleCollaborators noInverseParser 1).written = [] :=
  have h := fatal_errors_before_any_output exampleCollaborators noInverseParser 1 (by decide)
  ⟨by decide, h.1, h.2.1⟩
end ants
